import Mathlib

/-!
Verification development for the pinksync_estimator analysis core.

Shallow embedding of the five analysis modules (resource_validator.py,
micro_macro_analyzer.py, performance_analyzer.py, benchmarking.py,
reporting.py).  Python floats are modelled as rationals, Python lists as
Lean lists (append-only histories append on the right), Python dicts as
insertion-ordered association lists, and raised exceptions as `Except`.
`datetime.now().isoformat()` is modelled by threading an explicit
timestamp string through every operation that stores one.  Formatted
message strings interpolate numbers via `toString` on rationals; the
decimal rendering therefore differs from CPython fixed-point formatting,
which none of the verified properties depend on.
-/

/-- Python `round` ties-to-even rounding of a rational to an integer
(CPython rounds the underlying binary float half-to-even; on the
non-tie values appearing in this development the two agree). -/
def roundHalfEven (q : ℚ) : ℤ :=
  let f : ℤ := ⌊q⌋
  let r : ℚ := q - f
  if r < 1/2 then f
  else if 1/2 < r then f + 1
  else if f % 2 = 0 then f else f + 1

/-- Python `round(x, n)` on the decimal level. -/
def pyRound (n : ℕ) (q : ℚ) : ℚ :=
  (roundHalfEven (q * 10 ^ n) : ℚ) / 10 ^ n

/-- Python `int(x)` on a float: truncation toward zero. -/
def pyInt (q : ℚ) : ℤ :=
  if 0 ≤ q then ⌊q⌋ else ⌈q⌉

/-- Python `math.ceil`. -/
def pyCeil (q : ℚ) : ℤ := ⌈q⌉

/-- `list(set(xs))` : deduplication.  CPython set iteration order is
implementation-defined; we keep the first occurrence of each element.
No verified property depends on the resulting order. -/
def dedupKeepFirst {α : Type} [DecidableEq α] (xs : List α) : List α :=
  (xs.foldl (fun acc x => if x ∈ acc then acc else acc ++ [x]) [])

/-- Insert behind every element with a key at most the inserted key
(auxiliary to `sortByKeyInt`). -/
def insertByKeyInt {α : Type} (k : α → ℤ) (x : α) : List α → List α
  | [] => [x]
  | y :: ys => if k y ≤ k x then y :: insertByKeyInt k x ys else x :: y :: ys

/-- Python `sorted(xs, key=k)` : stable sort by an integer key. -/
def sortByKeyInt {α : Type} (k : α → ℤ) : List α → List α
  | [] => []
  | x :: xs => insertByKeyInt k x (sortByKeyInt k xs)

/-- Python `xs[-n:]` : the last `n` elements. -/
def lastN {α : Type} (n : ℕ) (xs : List α) : List α :=
  xs.drop (xs.length - n)

/-- `statistics.mean` (callers guarantee nonempty input). -/
def meanQ (xs : List ℚ) : ℚ := xs.sum / xs.length

/-- Interpolated float in an f-string; decimal rendering abstracted. -/
def fmt2 (q : ℚ) : String := toString (pyRound 2 q)

/-- Interpolated float with one decimal in an f-string. -/
def fmt1 (q : ℚ) : String := toString (pyRound 1 q)

/-- Python `str.lower` (per-character, agreeing with `String.toLower`
on the ASCII unit strings concerned; stated over the character list so
that the kernel can evaluate it). -/
def pyLower (s : String) : String := ⟨s.data.map Char.toLower⟩

namespace RV
/-! ## resource_validator.py -/

/-- `ResourceType` enum. -/
inductive ResourceType
  | storage | compute | bandwidth | api_calls | ai_inference
  deriving DecidableEq, Repr

/-- `ValidationStatus` enum. -/
inductive ValidationStatus
  | valid | warning | discrepancy | critical
  deriving DecidableEq, Repr

/-- `ValidationStatus.value`. -/
def ValidationStatus.value : ValidationStatus → String
  | .valid => "valid"
  | .warning => "warning"
  | .discrepancy => "discrepancy"
  | .critical => "critical"

/-- `ResourceType.value`. -/
def ResourceType.value : ResourceType → String
  | .storage => "storage"
  | .compute => "compute"
  | .bandwidth => "bandwidth"
  | .api_calls => "api_calls"
  | .ai_inference => "ai_inference"

/-- `ResourceClaim` dataclass (metadata dict not modelled: never read). -/
structure ResourceClaim where
  resource_type : ResourceType
  claimed_amount : ℚ
  unit : String
  billing_period_start : String
  billing_period_end : String
  cost : ℚ
  deriving DecidableEq, Repr

/-- `ResourceUsage` dataclass (metadata dict not modelled: never read). -/
structure ResourceUsage where
  resource_type : ResourceType
  actual_amount : ℚ
  unit : String
  measurement_period_start : String
  measurement_period_end : String
  samples_count : ℤ
  deriving DecidableEq, Repr

/-- The `details` dict attached to a `ValidationResult`. -/
structure ValidationDetails where
  claim_period : String
  usage_period : String
  samples_count : ℤ
  unit : String
  cost_per_unit : ℚ
  deriving DecidableEq, Repr

/-- `ValidationResult` dataclass. -/
structure ValidationResult where
  resource_type : ResourceType
  status : ValidationStatus
  claimed : ℚ
  actual : ℚ
  variance : ℚ
  variance_percent : ℚ
  is_over_billed : Bool
  is_under_billed : Bool
  discrepancy_cost : ℚ
  recommendations : List String
  timestamp : String
  details : ValidationDetails
  deriving DecidableEq, Repr

/-- `ResourceValidator` instance state. -/
structure ResourceValidator where
  tolerance_percent : ℚ
  validation_history : List ValidationResult
  deriving DecidableEq, Repr

/-- Class constant `WARNING_THRESHOLD`. -/
def WARNING_THRESHOLD : ℚ := 5
/-- Class constant `DISCREPANCY_THRESHOLD`. -/
def DISCREPANCY_THRESHOLD : ℚ := 10
/-- Class constant `CRITICAL_THRESHOLD`. -/
def CRITICAL_THRESHOLD : ℚ := 25

/-- `_normalize_storage`. -/
def normalize_storage (amount : ℚ) (unit : String) : ℚ :=
  let u := pyLower unit
  if u ∈ ["gb", "gigabyte", "gigabytes"] then amount
  else if u ∈ ["mb", "megabyte", "megabytes"] then amount / 1024
  else if u ∈ ["tb", "terabyte", "terabytes"] then amount * 1024
  else if u ∈ ["kb", "kilobyte", "kilobytes"] then amount / (1024 * 1024)
  else amount

/-- `_normalize_compute`. -/
def normalize_compute (amount : ℚ) (unit : String) : ℚ :=
  let u := pyLower unit
  if u ∈ ["cpu-hours", "cpu_hours", "cpuhours"] then amount
  else if u ∈ ["cpu-minutes", "cpu_minutes"] then amount / 60
  else if u ∈ ["cpu-seconds", "cpu_seconds"] then amount / 3600
  else if u ∈ ["vcpu-hours", "vcpu_hours"] then amount
  else amount

/-- `_determine_status`. -/
def determine_status (variance_percent : ℚ) : ValidationStatus :=
  if variance_percent < WARNING_THRESHOLD then .valid
  else if variance_percent < DISCREPANCY_THRESHOLD then .warning
  else if variance_percent < CRITICAL_THRESHOLD then .discrepancy
  else .critical

/-- `_generate_storage_recommendations`. -/
def generate_storage_recommendations (variance_percent : ℚ)
    (is_over_billed is_under_billed : Bool) (claimed actual : ℚ) :
    List String :=
  if |variance_percent| < WARNING_THRESHOLD then
    ["Storage billing is accurate within tolerance.",
     "Continue monitoring storage usage trends."]
  else if is_over_billed then
    ["ALERT: Under-billing detected! Actual usage (" ++ fmt2 actual ++
       " GB) exceeds claimed (" ++ fmt2 claimed ++ " GB).",
     "Review storage monitoring systems for accuracy.",
     "Adjust billing to reflect actual usage."]
  else if is_under_billed then
    ["Over-billing detected: Claimed (" ++ fmt2 claimed ++
       " GB) exceeds actual usage (" ++ fmt2 actual ++ " GB).",
     "Opportunity to reduce costs by rightsizing storage allocation.",
     "Implement storage cleanup policies for unused data.",
     "Consider tiered storage for archival data."]
  else []

/-- `_generate_compute_recommendations`. -/
def generate_compute_recommendations (variance_percent : ℚ)
    (is_over_billed is_under_billed : Bool) (claimed actual : ℚ) :
    List String :=
  if |variance_percent| < WARNING_THRESHOLD then
    ["Compute billing is accurate within tolerance.",
     "Maintain current resource monitoring practices."]
  else if is_over_billed then
    ["ALERT: Under-billing detected! Actual usage (" ++ fmt2 actual ++
       " CPU-hours) exceeds claimed (" ++ fmt2 claimed ++ " CPU-hours).",
     "Review compute metering systems immediately.",
     "Verify all workloads are properly tracked."]
  else if is_under_billed then
    ["Over-billing detected: Claimed (" ++ fmt2 claimed ++
       " CPU-hours) exceeds actual usage (" ++ fmt2 actual ++ " CPU-hours).",
     "Opportunity to reduce costs by optimizing resource allocation.",
     "Consider auto-scaling policies to match actual demand.",
     "Review and terminate idle instances."]
  else []

/-- `validate_storage`.  A raised `ValueError` is `Except.error`; the
raise happens before any state mutation, hence the error branch carries
no updated validator. -/
def validate_storage (self : ResourceValidator) (claim : ResourceClaim)
    (usage : ResourceUsage) (ts : String) :
    Except String (ResourceValidator × ValidationResult) :=
  if claim.resource_type ≠ ResourceType.storage then
    .error "Claim must be of type STORAGE"
  else if usage.resource_type ≠ ResourceType.storage then
    .error "Usage must be of type STORAGE"
  else
    let claimed_normalized := normalize_storage claim.claimed_amount claim.unit
    let actual_normalized := normalize_storage usage.actual_amount usage.unit
    let variance := claimed_normalized - actual_normalized
    let variance_percent :=
      if claimed_normalized > 0 then variance / claimed_normalized * 100 else 0
    let status := determine_status |variance_percent|
    let is_over_billed := variance < 0
    let is_under_billed := variance > 0
    let cost_per_unit :=
      if claimed_normalized > 0 then claim.cost / claimed_normalized else 0
    let discrepancy_cost := |variance| * cost_per_unit
    let recommendations := generate_storage_recommendations variance_percent
      is_over_billed is_under_billed claimed_normalized actual_normalized
    let result : ValidationResult :=
      { resource_type := .storage
        status := status
        claimed := claimed_normalized
        actual := actual_normalized
        variance := variance
        variance_percent := variance_percent
        is_over_billed := is_over_billed
        is_under_billed := is_under_billed
        discrepancy_cost := discrepancy_cost
        recommendations := recommendations
        timestamp := ts
        details :=
          { claim_period := claim.billing_period_start ++ " to " ++
              claim.billing_period_end
            usage_period := usage.measurement_period_start ++ " to " ++
              usage.measurement_period_end
            samples_count := usage.samples_count
            unit := "GB"
            cost_per_unit := cost_per_unit } }
    .ok ({ self with validation_history := self.validation_history ++ [result] },
         result)

/-- `validate_compute`. -/
def validate_compute (self : ResourceValidator) (claim : ResourceClaim)
    (usage : ResourceUsage) (ts : String) :
    Except String (ResourceValidator × ValidationResult) :=
  if claim.resource_type ≠ ResourceType.compute then
    .error "Claim must be of type COMPUTE"
  else if usage.resource_type ≠ ResourceType.compute then
    .error "Usage must be of type COMPUTE"
  else
    let claimed_normalized := normalize_compute claim.claimed_amount claim.unit
    let actual_normalized := normalize_compute usage.actual_amount usage.unit
    let variance := claimed_normalized - actual_normalized
    let variance_percent :=
      if claimed_normalized > 0 then variance / claimed_normalized * 100 else 0
    let status := determine_status |variance_percent|
    let is_over_billed := variance < 0
    let is_under_billed := variance > 0
    let cost_per_unit :=
      if claimed_normalized > 0 then claim.cost / claimed_normalized else 0
    let discrepancy_cost := |variance| * cost_per_unit
    let recommendations := generate_compute_recommendations variance_percent
      is_over_billed is_under_billed claimed_normalized actual_normalized
    let result : ValidationResult :=
      { resource_type := .compute
        status := status
        claimed := claimed_normalized
        actual := actual_normalized
        variance := variance
        variance_percent := variance_percent
        is_over_billed := is_over_billed
        is_under_billed := is_under_billed
        discrepancy_cost := discrepancy_cost
        recommendations := recommendations
        timestamp := ts
        details :=
          { claim_period := claim.billing_period_start ++ " to " ++
              claim.billing_period_end
            usage_period := usage.measurement_period_start ++ " to " ++
              usage.measurement_period_end
            samples_count := usage.samples_count
            unit := "CPU-hours"
            cost_per_unit := cost_per_unit } }
    .ok ({ self with validation_history := self.validation_history ++ [result] },
         result)

/-- Caller-observable behavior of `validate_storage` in Python: an
exception leaves the validator object untouched, a normal return yields
the mutated validator and the result. -/
def run_validate_storage (self : ResourceValidator) (claim : ResourceClaim)
    (usage : ResourceUsage) (ts : String) :
    ResourceValidator × Option ValidationResult :=
  match validate_storage self claim usage ts with
  | .error _ => (self, none)
  | .ok (v, r) => (v, some r)

/-- Caller-observable behavior of `validate_compute`, as above. -/
def run_validate_compute (self : ResourceValidator) (claim : ResourceClaim)
    (usage : ResourceUsage) (ts : String) :
    ResourceValidator × Option ValidationResult :=
  match validate_compute self claim usage ts with
  | .error _ => (self, none)
  | .ok (v, r) => (v, some r)

/-- `_result_to_dict` output. -/
structure ValidationResultDict where
  resource_type : String
  status : String
  claimed : ℚ
  actual : ℚ
  variance : ℚ
  variance_percent : ℚ
  is_over_billed : Bool
  is_under_billed : Bool
  discrepancy_cost : ℚ
  recommendations : List String
  timestamp : String
  details : ValidationDetails
  deriving DecidableEq, Repr

/-- `_result_to_dict`. -/
def result_to_dict (result : ValidationResult) : ValidationResultDict :=
  { resource_type := result.resource_type.value
    status := result.status.value
    claimed := pyRound 4 result.claimed
    actual := pyRound 4 result.actual
    variance := pyRound 4 result.variance
    variance_percent := pyRound 2 result.variance_percent
    is_over_billed := result.is_over_billed
    is_under_billed := result.is_under_billed
    discrepancy_cost := pyRound 2 result.discrepancy_cost
    recommendations := result.recommendations
    timestamp := result.timestamp
    details := result.details }

/-- The summary dict of `batch_validate`. -/
structure BatchValidateSummary where
  timestamp : String
  total_resources_validated : ℕ
  valid : ℕ
  warnings : ℕ
  discrepancies : ℕ
  critical : ℕ
  total_discrepancy_cost : ℚ
  results : List ValidationResultDict
  overall_status : String
  deriving DecidableEq, Repr

/-- The per-claim loop body of `batch_validate`. -/
def batch_validate_step (usages : List ResourceUsage) (ts : String)
    (acc : ResourceValidator × List ValidationResult) (claim : ResourceClaim) :
    Except String (ResourceValidator × List ValidationResult) :=
  match usages.find? (fun u => u.resource_type = claim.resource_type) with
  | none => .ok acc
  | some matching_usage =>
    match claim.resource_type with
    | .storage => do
      let (v, r) ← validate_storage acc.1 claim matching_usage ts
      return (v, acc.2 ++ [r])
    | .compute => do
      let (v, r) ← validate_compute acc.1 claim matching_usage ts
      return (v, acc.2 ++ [r])
    | _ => .ok acc

/-- `batch_validate`.  A `ValueError` escaping the per-claim validation
would abort the whole call in Python, hence the `Except` (inside the
loop the resource types always match, so the error branch is in fact
unreachable). -/
def batch_validate (self : ResourceValidator) (claims : List ResourceClaim)
    (usages : List ResourceUsage) (ts : String) :
    Except String (ResourceValidator × BatchValidateSummary) := do
  let (v, results) ← claims.foldlM (batch_validate_step usages ts) (self, [])
  let total_discrepancy_cost := (results.map (·.discrepancy_cost)).sum
  let critical_count := results.countP (·.status = .critical)
  let discrepancy_count := results.countP (·.status = .discrepancy)
  let warning_count := results.countP (·.status = .warning)
  let valid_count := results.countP (·.status = .valid)
  return (v,
    { timestamp := ts
      total_resources_validated := results.length
      valid := valid_count
      warnings := warning_count
      discrepancies := discrepancy_count
      critical := critical_count
      total_discrepancy_cost := pyRound 2 total_discrepancy_cost
      results := results.map result_to_dict
      overall_status :=
        if critical_count > 0 then "critical"
        else if discrepancy_count > 0 then "discrepancy"
        else if warning_count > 0 then "warning" else "valid" })

end RV

namespace MM
/-! ## micro_macro_analyzer.py -/

/-- `ScaleLevel` enum. -/
inductive ScaleLevel
  | single_user | hundred_users | thousand_users | ten_thousand_users
  | hundred_thousand_users | million_users | ten_million_users
  deriving DecidableEq, Repr

/-- `ScaleLevel.value`. -/
def ScaleLevel.value : ScaleLevel → String
  | .single_user => "single_user"
  | .hundred_users => "hundred_users"
  | .thousand_users => "thousand_users"
  | .ten_thousand_users => "ten_thousand_users"
  | .hundred_thousand_users => "hundred_thousand_users"
  | .million_users => "million_users"
  | .ten_million_users => "ten_million_users"

/-- `UserResourceMetrics` dataclass (metadata dict not modelled: written
with bookkeeping only, never read back by the analysis). -/
structure UserResourceMetrics where
  user_id : String
  storage_gb : ℚ := 0
  compute_hours : ℚ := 0
  bandwidth_gb : ℚ := 0
  api_calls : ℤ := 0
  ai_inference_tokens : ℤ := 0
  cost_per_month : ℚ := 0
  tier : String := "free"
  active_days : ℤ := 0
  deriving DecidableEq, Repr

/-- The infrastructure-requirements dict of `_calculate_infrastructure_requirements`. -/
structure Infrastructure where
  storage_nodes : ℤ
  storage_capacity_tb : ℚ
  compute_instances : ℤ
  total_vcpus : ℤ
  api_instances : ℤ
  estimated_api_rps : ℚ
  database_instances : ℤ
  database_size_gb : ℚ
  load_balancers : ℤ
  cdn_required : Bool
  caching_layer_required : Bool
  deriving DecidableEq, Repr

/-- `ScaleProjection` dataclass. -/
structure ScaleProjection where
  scale_level : ScaleLevel
  user_count : ℤ
  total_storage_gb : ℚ
  total_storage_tb : ℚ
  total_compute_hours : ℚ
  total_bandwidth_gb : ℚ
  total_bandwidth_tb : ℚ
  total_api_calls : ℤ
  total_ai_tokens : ℤ
  monthly_cost : ℚ
  annual_cost : ℚ
  infrastructure_requirements : Infrastructure
  scaling_efficiency : ℚ
  recommendations : List String
  deriving DecidableEq, Repr

/-- `MicroMacroAnalyzer` instance state. -/
structure MicroMacroAnalyzer where
  user_samples : List UserResourceMetrics
  projections : List ScaleProjection
  deriving DecidableEq, Repr

/-- Scaling efficiency class constants. -/
def BASE_EFFICIENCY : ℚ := 1
def SCALE_100_EFFICIENCY : ℚ := 95/100
def SCALE_1K_EFFICIENCY : ℚ := 90/100
def SCALE_10K_EFFICIENCY : ℚ := 85/100
def SCALE_100K_EFFICIENCY : ℚ := 80/100
def SCALE_1M_EFFICIENCY : ℚ := 75/100
def SCALE_10M_EFFICIENCY : ℚ := 70/100

/-- Infrastructure cost class constants. -/
def STORAGE_COST_PER_GB : ℚ := 23/1000
def COMPUTE_COST_PER_HOUR : ℚ := 96/1000
def BANDWIDTH_COST_PER_GB : ℚ := 9/100
def API_COST_PER_1K_CALLS : ℚ := 1/100
def AI_TOKEN_COST_PER_1M : ℚ := 10

/-- `add_user_sample`. -/
def add_user_sample (self : MicroMacroAnalyzer) (metrics : UserResourceMetrics) :
    MicroMacroAnalyzer :=
  { self with user_samples := self.user_samples ++ [metrics] }

/-- Python `max(counts, key=counts.get)` over a dict built in encounter
order: the first key attaining the maximal count. -/
def argmaxFirst (pairs : List (String × ℕ)) : String :=
  match pairs with
  | [] => ""
  | p :: ps => (ps.foldl (fun best q => if best.2 < q.2 then q else best) p).1

/-- The `tier_counts` dict of `calculate_average_user_profile`:
tiers keyed in first-encounter order with their counts. -/
def tier_counts (samples : List UserResourceMetrics) : List (String × ℕ) :=
  samples.foldl
    (fun acc u =>
      if acc.any (fun p => p.1 = u.tier) then
        acc.map (fun p => if p.1 = u.tier then (p.1, p.2 + 1) else p)
      else acc ++ [(u.tier, 1)])
    []

/-- `calculate_average_user_profile`. -/
def calculate_average_user_profile (self : MicroMacroAnalyzer) :
    UserResourceMetrics :=
  if self.user_samples.isEmpty then
    { user_id := "average", tier := "unknown" }
  else
    let count : ℚ := self.user_samples.length
    { user_id := "average_profile"
      storage_gb := (self.user_samples.map (·.storage_gb)).sum / count
      compute_hours := (self.user_samples.map (·.compute_hours)).sum / count
      bandwidth_gb := (self.user_samples.map (·.bandwidth_gb)).sum / count
      api_calls := pyInt ((self.user_samples.map (·.api_calls)).sum / count)
      ai_inference_tokens :=
        pyInt ((self.user_samples.map (·.ai_inference_tokens)).sum / count)
      cost_per_month := (self.user_samples.map (·.cost_per_month)).sum / count
      tier := argmaxFirst (tier_counts self.user_samples)
      active_days := pyInt ((self.user_samples.map (·.active_days)).sum / count) }

/-- `_get_scale_efficiency`. -/
def get_scale_efficiency (user_count : ℤ) : ScaleLevel × ℚ :=
  if user_count ≥ 10000000 then (.ten_million_users, SCALE_10M_EFFICIENCY)
  else if user_count ≥ 1000000 then (.million_users, SCALE_1M_EFFICIENCY)
  else if user_count ≥ 100000 then (.hundred_thousand_users, SCALE_100K_EFFICIENCY)
  else if user_count ≥ 10000 then (.ten_thousand_users, SCALE_10K_EFFICIENCY)
  else if user_count ≥ 1000 then (.thousand_users, SCALE_1K_EFFICIENCY)
  else if user_count ≥ 100 then (.hundred_users, SCALE_100_EFFICIENCY)
  else (.single_user, BASE_EFFICIENCY)

/-- `_calculate_infrastructure_requirements`. -/
def calculate_infrastructure_requirements (storage_gb compute_hours
    bandwidth_gb : ℚ) (api_calls : ℤ) : Infrastructure :=
  let storage_servers := pyCeil (storage_gb / 10000)
  let concurrent_cpus := pyCeil (compute_hours / 730)
  let compute_instances := pyCeil ((concurrent_cpus : ℚ) / 4)
  let api_rps : ℚ := (api_calls : ℚ) / (30 * 24 * 3600)
  let api_instances := pyCeil (api_rps / 1000)
  let db_size_gb := storage_gb * (1/10)
  let db_instances := pyCeil (db_size_gb / 1000)
  let load_balancers : ℤ :=
    if compute_instances > 1 ∨ api_instances > 1 then 1 else 0
  { storage_nodes := storage_servers
    storage_capacity_tb := pyRound 2 (storage_gb / 1024)
    compute_instances := compute_instances
    total_vcpus := concurrent_cpus
    api_instances := api_instances
    estimated_api_rps := pyRound 2 api_rps
    database_instances := db_instances
    database_size_gb := pyRound 2 db_size_gb
    load_balancers := load_balancers
    cdn_required := bandwidth_gb > 10000
    caching_layer_required := api_calls > 10000000 }

/-- `_generate_scale_recommendations`. -/
def generate_scale_recommendations (scale_level : ScaleLevel)
    (monthly_cost : ℚ) (infrastructure : Infrastructure) : List String :=
  let scale_recs : List String :=
    match scale_level with
    | .single_user | .hundred_users =>
      ["At this scale, focus on product-market fit rather than optimization.",
       "Use managed services to minimize operational overhead."]
    | .thousand_users =>
      ["Start implementing basic caching strategies.",
       "Monitor usage patterns to identify optimization opportunities.",
       "Consider reserved instances for predictable workloads."]
    | .ten_thousand_users =>
      ["Implement CDN for static content delivery.",
       "Use auto-scaling groups for compute resources.",
       "Establish database read replicas for performance."]
    | .hundred_thousand_users =>
      ["Implement multi-region deployment for redundancy.",
       "Use dedicated cache clusters (Redis/Memcached).",
       "Negotiate enterprise pricing with cloud providers.",
       "Implement comprehensive monitoring and alerting."]
    | .million_users | .ten_million_users =>
      ["CRITICAL: Enterprise-grade architecture required.",
       "Implement microservices architecture for scalability.",
       "Use database sharding and partitioning strategies.",
       "Establish dedicated SRE team for operations.",
       "Implement sophisticated cost optimization strategies.",
       "Consider hybrid or multi-cloud strategy."]
  let cost_recs : List String :=
    if monthly_cost > 100000 then
      ["HIGH COST ALERT: Monthly cost is $" ++ fmt2 monthly_cost ++
         ". Implement aggressive cost optimization."]
    else []
  let cdn_recs : List String :=
    if infrastructure.cdn_required then
      ["Implement CDN to reduce bandwidth costs and improve performance."]
    else []
  let cache_recs : List String :=
    if infrastructure.caching_layer_required then
      ["Deploy distributed caching layer to reduce database load and API costs."]
    else []
  let container_recs : List String :=
    if infrastructure.compute_instances > 50 then
      ["Consider containerization (Kubernetes) for better resource utilization."]
    else []
  scale_recs ++ cost_recs ++ cdn_recs ++ cache_recs ++ container_recs

/-- The per-resource totals of `project_to_scale` after applying the
efficiency multiplier.  Exposed as a definition so that the cost
identity can be stated about the pre-rounding monthly cost. -/
def projection_monthly_cost (base : UserResourceMetrics)
    (target_user_count : ℤ) (efficiency : ℚ) : ℚ :=
  let total_storage := base.storage_gb * target_user_count * efficiency
  let total_compute := base.compute_hours * target_user_count * efficiency
  let total_bandwidth := base.bandwidth_gb * target_user_count * efficiency
  let total_api_calls := pyInt ((base.api_calls * target_user_count : ℤ) * efficiency)
  let total_ai_tokens := pyInt ((base.ai_inference_tokens * target_user_count : ℤ) * efficiency)
  total_storage * STORAGE_COST_PER_GB
    + total_compute * COMPUTE_COST_PER_HOUR
    + total_bandwidth * BANDWIDTH_COST_PER_GB
    + ((total_api_calls : ℚ) / 1000) * API_COST_PER_1K_CALLS
    + ((total_ai_tokens : ℚ) / 1000000) * AI_TOKEN_COST_PER_1M

/-- `project_to_scale`.  `base_metrics=None` defaults to the average
profile; appends the projection to `self.projections`. -/
def project_to_scale (self : MicroMacroAnalyzer) (target_user_count : ℤ)
    (base_metrics : Option UserResourceMetrics) :
    MicroMacroAnalyzer × ScaleProjection :=
  let base := base_metrics.getD (calculate_average_user_profile self)
  let (scale_level, efficiency) := get_scale_efficiency target_user_count
  let base_storage := base.storage_gb * target_user_count
  let base_compute := base.compute_hours * target_user_count
  let base_bandwidth := base.bandwidth_gb * target_user_count
  let base_api_calls : ℤ := base.api_calls * target_user_count
  let base_ai_tokens : ℤ := base.ai_inference_tokens * target_user_count
  let total_storage := base_storage * efficiency
  let total_compute := base_compute * efficiency
  let total_bandwidth := base_bandwidth * efficiency
  let total_api_calls := pyInt ((base_api_calls : ℚ) * efficiency)
  let total_ai_tokens := pyInt ((base_ai_tokens : ℚ) * efficiency)
  let monthly_cost := projection_monthly_cost base target_user_count efficiency
  let annual_cost := monthly_cost * 12
  let infrastructure := calculate_infrastructure_requirements
    total_storage total_compute total_bandwidth total_api_calls
  let recommendations := generate_scale_recommendations scale_level
    monthly_cost infrastructure
  let projection : ScaleProjection :=
    { scale_level := scale_level
      user_count := target_user_count
      total_storage_gb := pyRound 2 total_storage
      total_storage_tb := pyRound 2 (total_storage / 1024)
      total_compute_hours := pyRound 2 total_compute
      total_bandwidth_gb := pyRound 2 total_bandwidth
      total_bandwidth_tb := pyRound 2 (total_bandwidth / 1024)
      total_api_calls := total_api_calls
      total_ai_tokens := total_ai_tokens
      monthly_cost := pyRound 2 monthly_cost
      annual_cost := pyRound 2 annual_cost
      infrastructure_requirements := infrastructure
      scaling_efficiency := efficiency
      recommendations := recommendations }
  ({ self with projections := self.projections ++ [projection] }, projection)

/-- The canonical scale targets of `project_multiple_scales`. -/
def scale_targets : List ℤ :=
  [1, 100, 1000, 10000, 100000, 1000000, 10000000]

/-- `project_multiple_scales`. -/
def project_multiple_scales (self : MicroMacroAnalyzer)
    (base_metrics : Option UserResourceMetrics) :
    MicroMacroAnalyzer × List ScaleProjection :=
  scale_targets.foldl
    (fun (acc : MicroMacroAnalyzer × List ScaleProjection) target =>
      let (st, p) := project_to_scale acc.1 target base_metrics
      (st, acc.2 ++ [p]))
    (self, [])

/-- One entry of the `growth_stages` list in `_analyze_growth_trajectory`. -/
structure GrowthStage where
  from_users : ℤ
  to_users : ℤ
  user_multiplier : ℚ
  cost_multiplier : ℚ
  efficiency_gain_percent : ℚ
  deriving DecidableEq, Repr

/-- The `optimal_scale` dict of `_find_optimal_scale`. -/
structure OptimalScale where
  optimal_user_count : ℤ
  optimal_scale_level : String
  cost_per_user : ℚ
  reasoning : String
  deriving DecidableEq, Repr

/-- The growth-analysis dict of `_analyze_growth_trajectory`
(`none` models the empty dict returned for fewer than 2 projections). -/
structure GrowthAnalysis where
  growth_stages : List GrowthStage
  optimal_scale : Option OptimalScale
  deriving DecidableEq, Repr

/-- `_find_optimal_scale`.  Python `min(key=)` returns the first
minimum in iteration order. -/
def find_optimal_scale (projections : List ScaleProjection) :
    Option OptimalScale :=
  match projections with
  | [] => none
  | p0 :: ps =>
    let cpu := fun (p : ScaleProjection) =>
      if p.user_count > 0 then p.monthly_cost / p.user_count else 0
    let min_p := ps.foldl (fun best p => if cpu p < cpu best then p else best) p0
    some
      { optimal_user_count := min_p.user_count
        optimal_scale_level := min_p.scale_level.value
        cost_per_user := pyRound 4 (cpu min_p)
        reasoning := "This scale achieves the best balance between economies of scale and operational efficiency." }

/-- The consecutive-pairs loop of `_analyze_growth_trajectory`. -/
def growth_stages_of : List ScaleProjection → List GrowthStage
  | [] => []
  | [_] => []
  | prev :: curr :: rest =>
    let user_multiplier : ℚ := (curr.user_count : ℚ) / prev.user_count
    let cost_multiplier : ℚ :=
      if prev.monthly_cost > 0 then curr.monthly_cost / prev.monthly_cost else 0
    let efficiency_gain : ℚ :=
      if user_multiplier > 0 then 1 - cost_multiplier / user_multiplier else 0
    { from_users := prev.user_count
      to_users := curr.user_count
      user_multiplier := pyRound 2 user_multiplier
      cost_multiplier := pyRound 2 cost_multiplier
      efficiency_gain_percent := pyRound 2 (efficiency_gain * 100) } ::
      growth_stages_of (curr :: rest)

/-- `_analyze_growth_trajectory`. -/
def analyze_growth_trajectory (self : MicroMacroAnalyzer) :
    Option GrowthAnalysis :=
  if self.projections.length < 2 then none
  else
    let sorted_projections := sortByKeyInt (·.user_count) self.projections
    some
      { growth_stages := growth_stages_of sorted_projections
        optimal_scale := find_optimal_scale sorted_projections }

/-- The `average_user_profile` dict of `generate_scaling_report`. -/
structure AvgProfileDict where
  storage_gb : ℚ
  compute_hours : ℚ
  bandwidth_gb : ℚ
  api_calls : ℤ
  ai_tokens : ℤ
  cost_per_month : ℚ
  tier : String
  active_days : ℤ
  deriving DecidableEq, Repr

/-- One entry of `scale_projections` in `generate_scaling_report`. -/
structure ScaleProjectionDict where
  scale_level : String
  user_count : ℤ
  total_storage_tb : ℚ
  total_compute_hours : ℚ
  total_bandwidth_tb : ℚ
  monthly_cost : ℚ
  annual_cost : ℚ
  scaling_efficiency : ℚ
  infrastructure : Infrastructure
  recommendations : List String
  deriving DecidableEq, Repr

/-- The `executive_summary` dict of `_generate_executive_summary`
(`none` fields model absent dict keys). -/
structure ExecutiveSummary where
  key_insights : List String
  single_user_monthly_cost : Option ℚ
  thousand_users_monthly_cost : Option ℚ
  thousand_users_annual_cost : Option ℚ
  million_users_monthly_cost : Option ℚ
  million_users_annual_cost : Option ℚ
  scaling_efficiency_1k_to_1m : Option ℚ
  deriving DecidableEq, Repr

/-- `_generate_executive_summary` (empty-projections case gives the
empty dict, modelled as the all-`none` summary). -/
def generate_executive_summary (self : MicroMacroAnalyzer) :
    ExecutiveSummary :=
  if self.projections.isEmpty then
    { key_insights := [], single_user_monthly_cost := none
      thousand_users_monthly_cost := none, thousand_users_annual_cost := none
      million_users_monthly_cost := none, million_users_annual_cost := none
      scaling_efficiency_1k_to_1m := none }
  else
    let single_user := self.projections.find? (·.user_count = 1)
    let thousand := self.projections.find? (·.user_count = 1000)
    let million := self.projections.find? (·.user_count = 1000000)
    let eff_insights : List String × Option ℚ :=
      match million, thousand with
      | some m, some t =>
        let scale_efficiency := 1 - m.monthly_cost / (t.monthly_cost * 1000)
        (["Scaling from 1K to 1M users achieves " ++
            fmt1 (scale_efficiency * 100) ++
            "% cost efficiency through economies of scale."],
         some (pyRound 2 (scale_efficiency * 100)))
      | _, _ => ([], none)
    let infra_insights : List String :=
      match million with
      | some m =>
        ["At 1M users, requires " ++
           toString m.infrastructure_requirements.compute_instances ++
           " compute instances, " ++
           toString m.infrastructure_requirements.storage_nodes ++
           " storage nodes, and " ++
           toString m.infrastructure_requirements.database_instances ++
           " database instances."]
      | none => []
    { key_insights := eff_insights.1 ++ infra_insights
      single_user_monthly_cost := single_user.map (·.monthly_cost)
      thousand_users_monthly_cost := thousand.map (·.monthly_cost)
      thousand_users_annual_cost := thousand.map (·.annual_cost)
      million_users_monthly_cost := million.map (·.monthly_cost)
      million_users_annual_cost := million.map (·.annual_cost)
      scaling_efficiency_1k_to_1m := eff_insights.2 }

/-- The payload of a successful `generate_scaling_report`. -/
structure ScalingReportData where
  timestamp : String
  sample_size : ℕ
  average_user_profile : AvgProfileDict
  scale_projections : List ScaleProjectionDict
  growth_analysis : Option GrowthAnalysis
  executive_summary : ExecutiveSummary
  deriving DecidableEq, Repr

/-- Result value of `generate_scaling_report`: either the
`{error, timestamp}` payload or the full report dict. -/
inductive ScalingReport
  | error (message : String) (timestamp : String)
  | report (data : ScalingReportData)
  deriving DecidableEq, Repr

/-- `generate_scaling_report`.  Mutates `self` when projections have to
be generated first, hence returns the updated analyzer as well. -/
def generate_scaling_report (self : MicroMacroAnalyzer) (ts : String) :
    MicroMacroAnalyzer × ScalingReport :=
  if self.user_samples.isEmpty then
    (self, .error "No user samples available for analysis" ts)
  else
    let avg_profile := calculate_average_user_profile self
    let self :=
      if self.projections.isEmpty then (project_multiple_scales self none).1
      else self
    let growth_analysis := analyze_growth_trajectory self
    (self, .report
      { timestamp := ts
        sample_size := self.user_samples.length
        average_user_profile :=
          { storage_gb := pyRound 4 avg_profile.storage_gb
            compute_hours := pyRound 4 avg_profile.compute_hours
            bandwidth_gb := pyRound 4 avg_profile.bandwidth_gb
            api_calls := avg_profile.api_calls
            ai_tokens := avg_profile.ai_inference_tokens
            cost_per_month := pyRound 2 avg_profile.cost_per_month
            tier := avg_profile.tier
            active_days := avg_profile.active_days }
        scale_projections := self.projections.map (fun p =>
          { scale_level := p.scale_level.value
            user_count := p.user_count
            total_storage_tb := p.total_storage_tb
            total_compute_hours := p.total_compute_hours
            total_bandwidth_tb := p.total_bandwidth_tb
            monthly_cost := p.monthly_cost
            annual_cost := p.annual_cost
            scaling_efficiency := p.scaling_efficiency
            infrastructure := p.infrastructure_requirements
            recommendations := p.recommendations })
        growth_analysis := growth_analysis
        executive_summary := generate_executive_summary self })

end MM

namespace PA
/-! ## performance_analyzer.py -/

/-- `PerformanceStatus` enum. -/
inductive PerformanceStatus
  | excellent | good | acceptable | degraded | critical
  deriving DecidableEq, Repr

/-- `PerformanceStatus.value`. -/
def PerformanceStatus.value : PerformanceStatus → String
  | .excellent => "excellent"
  | .good => "good"
  | .acceptable => "acceptable"
  | .degraded => "degraded"
  | .critical => "critical"

/-- `LatencyMetrics` dataclass. -/
structure LatencyMetrics where
  p50_ms : ℚ
  p90_ms : ℚ
  p95_ms : ℚ
  p99_ms : ℚ
  min_ms : ℚ
  max_ms : ℚ
  avg_ms : ℚ
  sample_count : ℤ
  measurement_period_start : String
  measurement_period_end : String
  deriving DecidableEq, Repr

/-- `ThroughputMetrics` dataclass. -/
structure ThroughputMetrics where
  requests_per_second : ℚ
  successful_requests : ℤ
  failed_requests : ℤ
  total_requests : ℤ
  success_rate : ℚ
  error_rate : ℚ
  measurement_period_start : String
  measurement_period_end : String
  deriving DecidableEq, Repr

/-- `ResourceUtilization` dataclass. -/
structure ResourceUtilization where
  cpu_percent : ℚ
  memory_percent : ℚ
  disk_io_mbps : ℚ
  network_io_mbps : ℚ
  timestamp : String
  deriving DecidableEq, Repr

/-- `LoadTestResult` dataclass. -/
structure LoadTestResult where
  test_name : String
  concurrent_users : ℤ
  duration_seconds : ℚ
  total_requests : ℤ
  successful_requests : ℤ
  failed_requests : ℤ
  avg_response_time_ms : ℚ
  p95_response_time_ms : ℚ
  p99_response_time_ms : ℚ
  requests_per_second : ℚ
  errors_per_second : ℚ
  resource_utilization : ResourceUtilization
  timestamp : String
  deriving DecidableEq, Repr

/-- `PerformanceAnalyzer` instance state. -/
structure PerformanceAnalyzer where
  latency_history : List LatencyMetrics
  throughput_history : List ThroughputMetrics
  load_test_results : List LoadTestResult
  deriving DecidableEq, Repr

/-- Latency threshold class constants (milliseconds). -/
def EXCELLENT_LATENCY_P95 : ℚ := 100
def GOOD_LATENCY_P95 : ℚ := 300
def ACCEPTABLE_LATENCY_P95 : ℚ := 1000
def DEGRADED_LATENCY_P95 : ℚ := 3000

/-- Error-rate threshold class constants. -/
def EXCELLENT_ERROR_RATE : ℚ := 1/1000
def GOOD_ERROR_RATE : ℚ := 1/100
def ACCEPTABLE_ERROR_RATE : ℚ := 5/100

/-- CPU threshold class constants. -/
def HEALTHY_CPU_THRESHOLD : ℚ := 70
def WARNING_CPU_THRESHOLD : ℚ := 85
def CRITICAL_CPU_THRESHOLD : ℚ := 95

/-- `_generate_latency_recommendations`. -/
def generate_latency_recommendations (status : PerformanceStatus)
    (variability : ℚ) (has_long_tail : Bool) : List String :=
  let status_recs : List String :=
    if status = .excellent then
      ["Latency performance is excellent. Continue monitoring."]
    else if status = .acceptable ∨ status = .degraded ∨ status = .critical then
      ["Implement caching for frequently accessed data.",
       "Review database query performance and add indexes.",
       "Consider using a CDN for static assets.",
       "Profile application code to identify bottlenecks."]
    else []
  let var_recs : List String :=
    if variability > 3 then
      ["High latency variability detected. Investigate inconsistent performance.",
       "Check for resource contention or background jobs."]
    else []
  let tail_recs : List String :=
    if has_long_tail then
      ["Long tail latency detected (P99 >> P50).",
       "Investigate outlier requests and optimize slow paths.",
       "Consider implementing request timeouts and circuit breakers."]
    else []
  status_recs ++ var_recs ++ tail_recs

/-- The rounded `metrics` sub-dict of an `analyze_latency` result. -/
structure LatencyMetricsDict where
  p50_ms : ℚ
  p90_ms : ℚ
  p95_ms : ℚ
  p99_ms : ℚ
  avg_ms : ℚ
  min_ms : ℚ
  max_ms : ℚ
  deriving DecidableEq, Repr

/-- The `analysis` sub-dict of an `analyze_latency` result. -/
structure LatencyAnalysisDict where
  variability_ratio : ℚ
  has_long_tail : Bool
  tail_ratio : ℚ
  sample_count : ℤ
  deriving DecidableEq, Repr

/-- The result dict of `analyze_latency`. -/
structure LatencyAnalysis where
  status : String
  description : String
  metrics : LatencyMetricsDict
  analysis : LatencyAnalysisDict
  recommendations : List String
  timestamp : String
  deriving DecidableEq, Repr

/-- `analyze_latency`: appends the sample to `latency_history` and
returns the analysis dict. -/
def analyze_latency (self : PerformanceAnalyzer) (metrics : LatencyMetrics)
    (ts : String) : PerformanceAnalyzer × LatencyAnalysis :=
  let self := { self with latency_history := self.latency_history ++ [metrics] }
  let (status, description) :=
    if metrics.p95_ms ≤ EXCELLENT_LATENCY_P95 then
      (PerformanceStatus.excellent,
       "Latency is excellent. System is highly responsive.")
    else if metrics.p95_ms ≤ GOOD_LATENCY_P95 then
      (.good, "Latency is good. System performance is acceptable.")
    else if metrics.p95_ms ≤ ACCEPTABLE_LATENCY_P95 then
      (.acceptable, "Latency is acceptable but could be improved.")
    else if metrics.p95_ms ≤ DEGRADED_LATENCY_P95 then
      (.degraded, "Latency is degraded. Performance optimization needed.")
    else (.critical, "Latency is critical. Immediate action required.")
  let latency_range := metrics.max_ms - metrics.min_ms
  let variability_ratio :=
    if metrics.avg_ms > 0 then latency_range / metrics.avg_ms else 0
  let tail_ratio := if metrics.p50_ms > 0 then metrics.p99_ms / metrics.p50_ms else 0
  let has_long_tail := tail_ratio > 5
  let recommendations :=
    generate_latency_recommendations status variability_ratio has_long_tail
  (self,
   { status := status.value
     description := description
     metrics :=
       { p50_ms := pyRound 2 metrics.p50_ms
         p90_ms := pyRound 2 metrics.p90_ms
         p95_ms := pyRound 2 metrics.p95_ms
         p99_ms := pyRound 2 metrics.p99_ms
         avg_ms := pyRound 2 metrics.avg_ms
         min_ms := pyRound 2 metrics.min_ms
         max_ms := pyRound 2 metrics.max_ms }
     analysis :=
       { variability_ratio := pyRound 2 variability_ratio
         has_long_tail := has_long_tail
         tail_ratio := pyRound 2 tail_ratio
         sample_count := metrics.sample_count }
     recommendations := recommendations
     timestamp := ts })

/-- `_generate_throughput_recommendations`. -/
def generate_throughput_recommendations (metrics : ThroughputMetrics)
    (status : PerformanceStatus) (capacity_utilization : ℚ) : List String :=
  let critical_recs : List String :=
    if status = .critical then
      ["CRITICAL: High error rate detected. Investigate immediately.",
       "Check logs for error patterns and root causes.",
       "Verify system dependencies are healthy."]
    else []
  let retry_recs : List String :=
    if metrics.error_rate > 1/100 then
      ["Implement retry logic with exponential backoff.",
       "Add circuit breakers for failing dependencies."]
    else []
  let capacity_recs : List String :=
    if capacity_utilization > 80 then
      ["System is at high capacity. Consider horizontal scaling.",
       "Implement load shedding or rate limiting."]
    else []
  let high_rps_recs : List String :=
    if metrics.requests_per_second > 1000 then
      ["High throughput detected. Ensure monitoring is comprehensive.",
       "Consider implementing request queueing for burst traffic."]
    else []
  critical_recs ++ retry_recs ++ capacity_recs ++ high_rps_recs

/-- The rounded `metrics` sub-dict of an `analyze_throughput` result. -/
structure ThroughputMetricsDict where
  requests_per_second : ℚ
  success_rate : ℚ
  error_rate : ℚ
  total_requests : ℤ
  successful_requests : ℤ
  failed_requests : ℤ
  deriving DecidableEq, Repr

/-- The result dict of `analyze_throughput`. -/
structure ThroughputAnalysis where
  status : String
  description : String
  metrics : ThroughputMetricsDict
  estimated_max_rps : ℚ
  capacity_utilization_percent : ℚ
  recommendations : List String
  timestamp : String
  deriving DecidableEq, Repr

/-- `analyze_throughput`: appends the sample to `throughput_history`
and returns the analysis dict. -/
def analyze_throughput (self : PerformanceAnalyzer)
    (metrics : ThroughputMetrics) (ts : String) :
    PerformanceAnalyzer × ThroughputAnalysis :=
  let self :=
    { self with throughput_history := self.throughput_history ++ [metrics] }
  let (status, description) :=
    if metrics.error_rate ≤ EXCELLENT_ERROR_RATE then
      (PerformanceStatus.excellent, "Throughput is excellent with minimal errors.")
    else if metrics.error_rate ≤ GOOD_ERROR_RATE then
      (.good, "Throughput is good with acceptable error rate.")
    else if metrics.error_rate ≤ ACCEPTABLE_ERROR_RATE then
      (.acceptable, "Throughput is acceptable but error rate is elevated.")
    else
      (.critical, "Throughput has critical error rate. Immediate attention needed.")
  let theoretical_max_rps :=
    if metrics.error_rate < 1 then
      metrics.requests_per_second / (1 - metrics.error_rate)
    else metrics.requests_per_second
  let capacity_utilization :=
    if theoretical_max_rps > 0 then
      metrics.requests_per_second / theoretical_max_rps * 100
    else 0
  let recommendations :=
    generate_throughput_recommendations metrics status capacity_utilization
  (self,
   { status := status.value
     description := description
     metrics :=
       { requests_per_second := pyRound 2 metrics.requests_per_second
         success_rate := pyRound 2 (metrics.success_rate * 100)
         error_rate := pyRound 4 (metrics.error_rate * 100)
         total_requests := metrics.total_requests
         successful_requests := metrics.successful_requests
         failed_requests := metrics.failed_requests }
     estimated_max_rps := pyRound 2 theoretical_max_rps
     capacity_utilization_percent := pyRound 2 capacity_utilization
     recommendations := recommendations
     timestamp := ts })

/-- Result of `_calculate_trend` (`insufficient` models the
`insufficient_data` dict returned for fewer than 2 values). -/
inductive Trend
  | insufficient
  | trend (direction : String) (change_percent first_half_avg
      second_half_avg : ℚ)
  deriving DecidableEq, Repr

/-- `_calculate_trend`. -/
def calculate_trend (values : List ℚ) : Trend :=
  if values.length < 2 then .insufficient
  else
    let mid := values.length / 2
    let first_half_avg := meanQ (values.take mid)
    let second_half_avg := meanQ (values.drop mid)
    let change := second_half_avg - first_half_avg
    let change_percent :=
      if first_half_avg > 0 then change / first_half_avg * 100 else 0
    let direction :=
      if |change_percent| < 5 then "stable"
      else if change_percent > 0 then "increasing"
      else "decreasing"
    .trend direction (pyRound 2 change_percent) (pyRound 2 first_half_avg)
      (pyRound 2 second_half_avg)

/-- The `throughput_trends` sub-dict of `calculate_performance_trends`. -/
structure ThroughputTrends where
  rps_trend : Trend
  error_rate_trend : Trend
  deriving DecidableEq, Repr

/-- The success payload of `calculate_performance_trends`. -/
structure TrendsData where
  p95_trend : Trend
  avg_trend : Trend
  periods_analyzed : ℕ
  throughput_trends : Option ThroughputTrends
  timestamp : String
  deriving DecidableEq, Repr

/-- Result of `calculate_performance_trends`: the `{error, timestamp}`
payload for fewer than 2 latency samples, or the trend dict. -/
inductive TrendsReport
  | error (message : String) (timestamp : String)
  | trends (data : TrendsData)
  deriving DecidableEq, Repr

/-- `calculate_performance_trends` (default `lookback_periods=10`). -/
def calculate_performance_trends (self : PerformanceAnalyzer)
    (lookback_periods : ℕ) (ts : String) : TrendsReport :=
  if self.latency_history.length < 2 then
    .error "Insufficient data for trend analysis" ts
  else
    let recent_latency := lastN lookback_periods self.latency_history
    let p95_trend := calculate_trend (recent_latency.map (·.p95_ms))
    let avg_trend := calculate_trend (recent_latency.map (·.avg_ms))
    let throughput_trend : Option ThroughputTrends :=
      if self.throughput_history.length ≥ 2 then
        let recent_throughput := lastN lookback_periods self.throughput_history
        some
          { rps_trend :=
              calculate_trend (recent_throughput.map (·.requests_per_second))
            error_rate_trend :=
              calculate_trend (recent_throughput.map (·.error_rate)) }
      else none
    .trends
      { p95_trend := p95_trend
        avg_trend := avg_trend
        periods_analyzed := recent_latency.length
        throughput_trends := throughput_trend
        timestamp := ts }

/-- One entry of the `scaling_metrics` list of
`analyze_scaling_efficiency`. -/
structure ScalingMetric where
  from_users : ℤ
  to_users : ℤ
  user_increase_ratio : ℚ
  throughput_increase_ratio : ℚ
  latency_increase_ratio : ℚ
  throughput_efficiency_percent : ℚ
  latency_degradation_percent : ℚ
  scaling_score : ℚ
  deriving DecidableEq, Repr

/-- The consecutive-pairs loop of `analyze_scaling_efficiency`.
Rational division totalizes the unguarded `concurrent_users` quotient
(a zero previous user count would raise in Python; no verified
property exercises that input). -/
def scaling_metrics_of : List LoadTestResult → List ScalingMetric
  | [] => []
  | [_] => []
  | prev :: curr :: rest =>
    let user_ratio : ℚ := (curr.concurrent_users : ℚ) / prev.concurrent_users
    let throughput_ratio : ℚ :=
      if prev.requests_per_second > 0 then
        curr.requests_per_second / prev.requests_per_second
      else 0
    let latency_ratio : ℚ :=
      if prev.avg_response_time_ms > 0 then
        curr.avg_response_time_ms / prev.avg_response_time_ms
      else 0
    let throughput_efficiency :=
      if user_ratio > 0 then throughput_ratio / user_ratio * 100 else 0
    let latency_degradation :=
      if latency_ratio > 0 then (latency_ratio - 1) * 100 else 0
    let scaling_score := throughput_efficiency - latency_degradation * (1/2)
    { from_users := prev.concurrent_users
      to_users := curr.concurrent_users
      user_increase_ratio := pyRound 2 user_ratio
      throughput_increase_ratio := pyRound 2 throughput_ratio
      latency_increase_ratio := pyRound 2 latency_ratio
      throughput_efficiency_percent := pyRound 2 throughput_efficiency
      latency_degradation_percent := pyRound 2 latency_degradation
      scaling_score := pyRound 2 scaling_score } ::
      scaling_metrics_of (curr :: rest)

/-- `_generate_scaling_recommendations`. -/
def generate_scaling_recommendations (scaling_metrics : List ScalingMetric)
    (status : PerformanceStatus) : List String :=
  let status_recs : List String :=
    if status = .excellent then
      ["System scales excellently. Current architecture is effective."]
    else if status = .good ∨ status = .acceptable then
      ["System scales adequately but optimization is possible.",
       "Consider implementing connection pooling.",
       "Review database connection and query patterns."]
    else if status = .degraded ∨ status = .critical then
      ["CRITICAL: Poor scaling efficiency detected.",
       "Architecture review recommended - consider microservices.",
       "Implement database read replicas and write sharding.",
       "Add caching layer (Redis/Memcached).",
       "Review and optimize locking and concurrency patterns."]
    else []
  let pattern_recs : List String :=
    scaling_metrics.flatMap (fun m =>
      (if m.latency_degradation_percent > 50 then
        ["Significant latency degradation at " ++ toString m.to_users ++
           " users. Investigate bottlenecks."]
      else []) ++
      (if m.throughput_efficiency_percent < 70 then
        ["Poor throughput scaling at " ++ toString m.to_users ++
           " users. Review resource allocation."]
      else []))
  status_recs ++ pattern_recs

/-- The success payload of `analyze_scaling_efficiency`. -/
structure ScalingEfficiencyData where
  status : String
  description : String
  average_scaling_score : ℚ
  scaling_metrics : List ScalingMetric
  load_tests_analyzed : ℕ
  recommendations : List String
  timestamp : String
  deriving DecidableEq, Repr

/-- Result of `analyze_scaling_efficiency`. -/
inductive ScalingEfficiencyReport
  | error (message : String) (timestamp : String)
  | data (d : ScalingEfficiencyData)
  deriving DecidableEq, Repr

/-- `analyze_scaling_efficiency`. -/
def analyze_scaling_efficiency (load_tests : List LoadTestResult)
    (ts : String) : ScalingEfficiencyReport :=
  if load_tests.length < 2 then
    .error "Need at least 2 load test results for scaling analysis" ts
  else
    let sorted_tests := sortByKeyInt (·.concurrent_users) load_tests
    let scaling_metrics := scaling_metrics_of sorted_tests
    let avg_scaling_score := meanQ (scaling_metrics.map (·.scaling_score))
    let (scaling_status, scaling_description) :=
      if avg_scaling_score ≥ 90 then
        (PerformanceStatus.excellent,
         "System scales excellently with near-linear performance.")
      else if avg_scaling_score ≥ 75 then
        (.good, "System scales well with acceptable degradation.")
      else if avg_scaling_score ≥ 60 then
        (.acceptable, "System scales adequately but optimization possible.")
      else if avg_scaling_score ≥ 40 then
        (.degraded, "System scaling is degraded. Performance optimization needed.")
      else (.critical, "System scaling is poor. Architecture review required.")
    let recommendations :=
      generate_scaling_recommendations scaling_metrics scaling_status
    .data
      { status := scaling_status.value
        description := scaling_description
        average_scaling_score := pyRound 2 avg_scaling_score
        scaling_metrics := scaling_metrics
        load_tests_analyzed := sorted_tests.length
        recommendations := recommendations
        timestamp := ts }

/-- The `summary` dict of `_generate_performance_summary`. -/
structure PerformanceSummary where
  overall_status : String
  key_findings : List String
  priority_actions : List String
  deriving DecidableEq, Repr

/-- The report dict of `generate_performance_report` (`none` fields
model absent keys). -/
structure PerformanceReport where
  timestamp : String
  latency : Option LatencyAnalysis
  throughput : Option ThroughputAnalysis
  trends : Option TrendsReport
  scaling : Option ScalingEfficiencyReport
  summary : PerformanceSummary
  deriving DecidableEq, Repr

/-- `_generate_performance_summary` applied to the partially built
report (only the `latency` and `throughput` entries are read). -/
def generate_performance_summary (latency : Option LatencyAnalysis)
    (throughput : Option ThroughputAnalysis) : PerformanceSummary :=
  let statuses :=
    (latency.map (·.status)).toList ++ (throughput.map (·.status)).toList
  let overall_status :=
    if statuses.isEmpty then "unknown"
    else if "critical" ∈ statuses then "critical"
    else if "degraded" ∈ statuses then "degraded"
    else if "acceptable" ∈ statuses then "acceptable"
    else if "good" ∈ statuses then "good"
    else "excellent"
  let latency_findings : List String :=
    match latency with
    | some l => ["P95 latency: " ++ fmt2 l.metrics.p95_ms ++ "ms"]
    | none => []
  let throughput_findings : List String :=
    match throughput with
    | some t =>
      ["Throughput: " ++ fmt2 t.metrics.requests_per_second ++
         " req/s with " ++ fmt2 t.metrics.error_rate ++ "% error rate"]
    | none => []
  { overall_status := overall_status
    key_findings := latency_findings ++ throughput_findings
    priority_actions := [] }

/-- `generate_performance_report`.  Re-analyzing the latest samples
re-appends them to the histories (the `analyze_*` methods mutate), so
the updated analyzer is returned alongside the report. -/
def generate_performance_report (self : PerformanceAnalyzer) (ts : String) :
    PerformanceAnalyzer × PerformanceReport :=
  let (self, latency) :=
    match self.latency_history.getLast? with
    | some latest_latency =>
      let (st, a) := analyze_latency self latest_latency ts
      (st, some a)
    | none => (self, none)
  let (self, throughput) :=
    match self.throughput_history.getLast? with
    | some latest_throughput =>
      let (st, a) := analyze_throughput self latest_throughput ts
      (st, some a)
    | none => (self, none)
  let trends : Option TrendsReport :=
    if self.latency_history.length ≥ 2 then
      some (calculate_performance_trends self 10 ts)
    else none
  let scaling : Option ScalingEfficiencyReport :=
    if self.load_test_results.length ≥ 2 then
      some (analyze_scaling_efficiency self.load_test_results ts)
    else none
  (self,
   { timestamp := ts
     latency := latency
     throughput := throughput
     trends := trends
     scaling := scaling
     summary := generate_performance_summary latency throughput })

end PA

namespace BM
/-! ## benchmarking.py -/

/-- `BenchmarkCategory` enum. -/
inductive BenchmarkCategory
  | storage | compute | latency | throughput | cost | efficiency
  deriving DecidableEq, Repr

/-- `BenchmarkCategory.value`. -/
def BenchmarkCategory.value : BenchmarkCategory → String
  | .storage => "storage"
  | .compute => "compute"
  | .latency => "latency"
  | .throughput => "throughput"
  | .cost => "cost"
  | .efficiency => "efficiency"

/-- `ComparisonResult` enum. -/
inductive ComparisonResult
  | exceeds_standard | meets_standard | below_standard | significantly_below
  deriving DecidableEq, Repr

/-- `ComparisonResult.value`. -/
def ComparisonResult.value : ComparisonResult → String
  | .exceeds_standard => "exceeds_standard"
  | .meets_standard => "meets_standard"
  | .below_standard => "below_standard"
  | .significantly_below => "significantly_below"

/-- `Benchmark` dataclass (metadata dict not modelled: never read). -/
structure Benchmark where
  name : String
  category : BenchmarkCategory
  value : ℚ
  unit : String
  source : String
  description : String
  deriving DecidableEq, Repr

/-- `BenchmarkComparison` dataclass. -/
structure BenchmarkComparison where
  benchmark_name : String
  category : BenchmarkCategory
  actual_value : ℚ
  benchmark_value : ℚ
  unit : String
  variance : ℚ
  variance_percent : ℚ
  result : ComparisonResult
  recommendations : List String
  timestamp : String
  deriving DecidableEq, Repr

/-- The static `INDUSTRY_STANDARDS` table, keyed in source order. -/
def INDUSTRY_STANDARDS : List (String × Benchmark) :=
  [("storage_cost_aws_s3_standard",
    { name := "AWS S3 Standard Storage", category := .storage, value := 23/1000
      unit := "$/GB/month", source := "AWS Pricing 2024"
      description := "Standard S3 storage pricing" }),
   ("storage_cost_aws_s3_ia",
    { name := "AWS S3 Infrequent Access", category := .storage, value := 125/10000
      unit := "$/GB/month", source := "AWS Pricing 2024"
      description := "S3 Infrequent Access storage pricing" }),
   ("storage_cost_gcp_standard",
    { name := "GCP Cloud Storage Standard", category := .storage, value := 20/1000
      unit := "$/GB/month", source := "GCP Pricing 2024"
      description := "GCP standard storage pricing" }),
   ("compute_cost_aws_t3_medium",
    { name := "AWS t3.medium", category := .compute, value := 416/10000
      unit := "$/CPU-hour", source := "AWS Pricing 2024"
      description := "AWS t3.medium on-demand pricing (2 vCPU)" }),
   ("compute_cost_aws_c5_large",
    { name := "AWS c5.large", category := .compute, value := 85/1000
      unit := "$/CPU-hour", source := "AWS Pricing 2024"
      description := "AWS c5.large on-demand pricing (2 vCPU)" }),
   ("compute_cost_gcp_n1_standard_2",
    { name := "GCP n1-standard-2", category := .compute, value := 95/1000
      unit := "$/CPU-hour", source := "GCP Pricing 2024"
      description := "GCP n1-standard-2 on-demand pricing (2 vCPU)" }),
   ("latency_p95_excellent",
    { name := "Excellent P95 Latency", category := .latency, value := 100
      unit := "ms", source := "Industry Best Practices"
      description := "Excellent P95 response time for web services" }),
   ("latency_p95_good",
    { name := "Good P95 Latency", category := .latency, value := 300
      unit := "ms", source := "Industry Best Practices"
      description := "Good P95 response time for web services" }),
   ("latency_p99_excellent",
    { name := "Excellent P99 Latency", category := .latency, value := 200
      unit := "ms", source := "Industry Best Practices"
      description := "Excellent P99 response time for web services" }),
   ("throughput_per_cpu_web",
    { name := "Web Service Throughput", category := .throughput, value := 100
      unit := "req/s/CPU", source := "Industry Best Practices"
      description := "Typical web service throughput per CPU" }),
   ("throughput_per_cpu_api",
    { name := "API Service Throughput", category := .throughput, value := 500
      unit := "req/s/CPU", source := "Industry Best Practices"
      description := "Typical API service throughput per CPU" }),
   ("cpu_utilization_target",
    { name := "Target CPU Utilization", category := .efficiency, value := 70
      unit := "%", source := "Industry Best Practices"
      description := "Target CPU utilization for efficient resource use" }),
   ("error_rate_acceptable",
    { name := "Acceptable Error Rate", category := .efficiency, value := 1
      unit := "%", source := "Industry Best Practices"
      description := "Acceptable error rate for production services" })]

/-- `BenchmarkingTool` instance state. -/
structure BenchmarkingTool where
  custom_baselines : List (String × Benchmark)
  comparison_history : List BenchmarkComparison
  deriving DecidableEq, Repr

/-- `add_custom_baseline`. -/
def add_custom_baseline (self : BenchmarkingTool) (name : String)
    (category : BenchmarkCategory) (value : ℚ) (unit : String)
    (description : String) : BenchmarkingTool × Benchmark :=
  let baseline : Benchmark :=
    { name := name, category := category, value := value, unit := unit
      source := "Custom Baseline", description := description }
  let updated :=
    if self.custom_baselines.any (·.1 = name) then
      self.custom_baselines.map (fun p => if p.1 = name then (name, baseline) else p)
    else self.custom_baselines ++ [(name, baseline)]
  ({ self with custom_baselines := updated }, baseline)

/-- `_determine_comparison_result`. -/
def determine_comparison_result (category : BenchmarkCategory)
    (variance_percent : ℚ) : ComparisonResult :=
  if category = .cost then
    if variance_percent < -20 then .exceeds_standard
    else if variance_percent < 0 then .meets_standard
    else if variance_percent < 20 then .below_standard
    else .significantly_below
  else if category = .latency then
    if variance_percent < -20 then .exceeds_standard
    else if variance_percent < 10 then .meets_standard
    else if variance_percent < 50 then .below_standard
    else .significantly_below
  else if category = .throughput ∨ category = .efficiency then
    if variance_percent > 20 then .exceeds_standard
    else if variance_percent > -10 then .meets_standard
    else if variance_percent > -30 then .below_standard
    else .significantly_below
  else
    if |variance_percent| < 10 then .meets_standard
    else if |variance_percent| < 30 then .below_standard
    else .significantly_below

/-- `_generate_benchmark_recommendations`. -/
def generate_benchmark_recommendations (metric_name : String)
    (benchmark : Benchmark) (variance_percent : ℚ)
    (result : ComparisonResult) : List String :=
  match result with
  | .exceeds_standard =>
    [metric_name ++ " exceeds industry standard by " ++
       fmt1 |variance_percent| ++ "%.",
     "Current performance is excellent. Document best practices."]
  | .meets_standard =>
    [metric_name ++ " meets industry standard (variance: " ++
       fmt1 variance_percent ++ "%).",
     "Continue monitoring to maintain performance."]
  | .below_standard =>
    ["WARNING: " ++ metric_name ++ " is " ++ fmt1 |variance_percent| ++
       "% below standard."] ++
    (if benchmark.category = .cost then
      ["Cost is above benchmark. Review pricing and consider optimization:",
       "  • Negotiate volume discounts with providers",
       "  • Use reserved instances or savings plans",
       "  • Implement auto-scaling to match demand"]
    else if benchmark.category = .latency then
      ["Latency exceeds acceptable threshold. Optimize performance:",
       "  • Implement caching strategies",
       "  • Optimize database queries",
       "  • Use CDN for static content"]
    else if benchmark.category = .throughput then
      ["Throughput is below standard. Increase capacity:",
       "  • Scale horizontally with more instances",
       "  • Optimize application code",
       "  • Implement load balancing"]
    else [])
  | .significantly_below =>
    ["CRITICAL: " ++ metric_name ++ " is significantly below standard (" ++
       fmt1 |variance_percent| ++ "% variance).",
     "Immediate action required:"] ++
    (if benchmark.category = .cost then
      ["  • Conduct comprehensive cost audit",
       "  • Consider alternative providers or architectures",
       "  • Implement aggressive cost reduction measures"]
    else
      ["  • Architecture review required",
       "  • Consider service redesign or technology changes",
       "  • Engage performance engineering expertise"])

/-- `_compare_values`: appends the comparison to `comparison_history`
and returns it. -/
def compare_values (self : BenchmarkingTool) (metric_name : String)
    (actual_value : ℚ) (benchmark : Benchmark) (ts : String) :
    BenchmarkingTool × BenchmarkComparison :=
  let variance := actual_value - benchmark.value
  let variance_percent :=
    if benchmark.value ≠ 0 then variance / benchmark.value * 100 else 0
  let result := determine_comparison_result benchmark.category variance_percent
  let recommendations := generate_benchmark_recommendations metric_name
    benchmark variance_percent result
  let comparison : BenchmarkComparison :=
    { benchmark_name := benchmark.name
      category := benchmark.category
      actual_value := actual_value
      benchmark_value := benchmark.value
      unit := benchmark.unit
      variance := variance
      variance_percent := variance_percent
      result := result
      recommendations := recommendations
      timestamp := ts }
  ({ self with comparison_history := self.comparison_history ++ [comparison] },
   comparison)

/-- `compare_against_standard` (`ValueError` for an unknown key). -/
def compare_against_standard (self : BenchmarkingTool) (metric_name : String)
    (actual_value : ℚ) (standard_key : String) (ts : String) :
    Except String (BenchmarkingTool × BenchmarkComparison) :=
  match INDUSTRY_STANDARDS.lookup standard_key with
  | none => .error ("Unknown industry standard: " ++ standard_key)
  | some benchmark => .ok (compare_values self metric_name actual_value benchmark ts)

/-- `compare_against_baseline` (`ValueError` for an unknown name). -/
def compare_against_baseline (self : BenchmarkingTool) (metric_name : String)
    (actual_value : ℚ) (baseline_name : String) (ts : String) :
    Except String (BenchmarkingTool × BenchmarkComparison) :=
  match self.custom_baselines.lookup baseline_name with
  | none => .error ("Unknown custom baseline: " ++ baseline_name)
  | some benchmark => .ok (compare_values self metric_name actual_value benchmark ts)

/-- `_comparison_to_dict` output. -/
structure BenchmarkComparisonDict where
  benchmark_name : String
  category : String
  actual_value : ℚ
  benchmark_value : ℚ
  unit : String
  variance : ℚ
  variance_percent : ℚ
  result : String
  recommendations : List String
  timestamp : String
  deriving DecidableEq, Repr

/-- `_comparison_to_dict`. -/
def comparison_to_dict (comparison : BenchmarkComparison) :
    BenchmarkComparisonDict :=
  { benchmark_name := comparison.benchmark_name
    category := comparison.category.value
    actual_value := pyRound 4 comparison.actual_value
    benchmark_value := pyRound 4 comparison.benchmark_value
    unit := comparison.unit
    variance := pyRound 4 comparison.variance
    variance_percent := pyRound 2 comparison.variance_percent
    result := comparison.result.value
    recommendations := comparison.recommendations
    timestamp := comparison.timestamp }

/-- The batch-comparison report dict of `batch_compare`. -/
structure BatchCompareReport where
  timestamp : String
  metrics_compared : ℕ
  exceeds_standard : ℕ
  meets_standard : ℕ
  below_standard : ℕ
  significantly_below : ℕ
  comparisons : List BenchmarkComparisonDict
  overall_status : String
  deriving DecidableEq, Repr

/-- `batch_compare`.  Metrics without a mapping, and mappings whose
standard key is unknown (`ValueError` caught), are silently skipped. -/
def batch_compare (self : BenchmarkingTool) (metrics : List (String × ℚ))
    (standard_mappings : List (String × String)) (ts : String) :
    BenchmarkingTool × BatchCompareReport :=
  let (self, comparisons) :=
    metrics.foldl
      (fun (acc : BenchmarkingTool × List BenchmarkComparison) m =>
        match standard_mappings.lookup m.1 with
        | none => acc
        | some standard_key =>
          match compare_against_standard acc.1 m.1 m.2 standard_key ts with
          | .error _ => acc
          | .ok (st, c) => (st, acc.2 ++ [c]))
      (self, [])
  let exceeds_count := comparisons.countP (·.result = .exceeds_standard)
  let meets_count := comparisons.countP (·.result = .meets_standard)
  let below_count := comparisons.countP (·.result = .below_standard)
  let significantly_below_count :=
    comparisons.countP (·.result = .significantly_below)
  (self,
   { timestamp := ts
     metrics_compared := comparisons.length
     exceeds_standard := exceeds_count
     meets_standard := meets_count
     below_standard := below_count
     significantly_below := significantly_below_count
     comparisons := comparisons.map comparison_to_dict
     overall_status :=
       if significantly_below_count > 0 then "critical"
       else if below_count > 0 then "warning"
       else if meets_count > 0 then "good" else "excellent" })

/-- The `summary` sub-dict of `generate_benchmarking_report`. -/
structure BenchReportSummary where
  by_result : List (String × ℕ)
  latest_comparison : BenchmarkComparisonDict
  deriving DecidableEq, Repr

/-- One entry of `custom_baselines_list`. -/
structure CustomBaselineEntry where
  name : String
  category : String
  value : ℚ
  unit : String
  description : String
  deriving DecidableEq, Repr

/-- The report dict of `generate_benchmarking_report`
(`none` fields model absent keys). -/
structure BenchmarkingReport where
  timestamp : String
  available_standards : ℕ
  custom_baselines : ℕ
  total_comparisons : ℕ
  comparisons : Option (List BenchmarkComparisonDict)
  summary : Option BenchReportSummary
  custom_baselines_list : Option (List CustomBaselineEntry)
  deriving DecidableEq, Repr

/-- The `results_count` dict of `generate_benchmarking_report`:
result values keyed in first-encounter order with their counts. -/
def results_count (history : List BenchmarkComparison) :
    List (String × ℕ) :=
  history.foldl
    (fun acc c =>
      let key := c.result.value
      if acc.any (fun p => p.1 = key) then
        acc.map (fun p => if p.1 = key then (p.1, p.2 + 1) else p)
      else acc ++ [(key, 1)])
    []

/-- `generate_benchmarking_report` (pure read of the tool state). -/
def generate_benchmarking_report (self : BenchmarkingTool)
    (include_history : Bool) (ts : String) : BenchmarkingReport :=
  let history_part : Option (List BenchmarkComparisonDict) ×
      Option BenchReportSummary :=
    match include_history, self.comparison_history.getLast? with
    | true, some latest =>
      (some (self.comparison_history.map comparison_to_dict),
       some { by_result := results_count self.comparison_history
              latest_comparison := comparison_to_dict latest })
    | _, _ => (none, none)
  { timestamp := ts
    available_standards := INDUSTRY_STANDARDS.length
    custom_baselines := self.custom_baselines.length
    total_comparisons := self.comparison_history.length
    comparisons := history_part.1
    summary := history_part.2
    custom_baselines_list :=
      if self.custom_baselines.isEmpty then none
      else some (self.custom_baselines.map (fun p =>
        { name := p.1
          category := p.2.category.value
          value := p.2.value
          unit := p.2.unit
          description := p.2.description })) }

end BM

namespace RP
/-! ## reporting.py

The four section builders and the anomaly detectors are embedded in
full.  The four pure string renderers behind `generate_report` are not
needed by any verified property and are omitted. -/

/-- f-string `{q:+.1f}`: explicit sign (rendering abstracted). -/
def fmtS1 (q : ℚ) : String :=
  (if 0 ≤ pyRound 1 q then "+" else "") ++ fmt1 q

/-- `SeverityLevel` enum. -/
inductive SeverityLevel
  | info | warning | error | critical
  deriving DecidableEq, Repr

/-- The `metadata` dict attached to benchmarking anomalies. -/
structure AnomalyMetadata where
  variance_percent : ℚ
  unit : String
  deriving DecidableEq, Repr

/-- `Anomaly` dataclass (`none` models absent optional fields and the
default empty metadata dict). -/
structure Anomaly where
  category : String
  severity : SeverityLevel
  description : String
  detected_at : String
  affected_metric : String
  expected_value : Option ℚ := none
  actual_value : Option ℚ := none
  recommendations : List String := []
  metadata : Option AnomalyMetadata := none
  deriving DecidableEq, Repr

/-- The `data` blob of a `ReportSection`, one variant per section kind. -/
inductive SectionData
  | validation (total_resources : ℕ) (discrepancies_found : ℕ)
      (total_cost_variance : ℚ)
      (validation_results : List RV.ValidationResultDict)
  | scaling (report : MM.ScalingReport)
  | performance (report : PA.PerformanceReport)
  | benchmarking (report : BM.BenchmarkingReport)
  deriving DecidableEq, Repr

/-- `ReportSection` dataclass. -/
structure ReportSection where
  title : String
  summary : String
  data : SectionData
  anomalies : List Anomaly
  recommendations : List String
  timestamp : String
  deriving DecidableEq, Repr

/-- `ComprehensiveReportGenerator` instance state. -/
structure ComprehensiveReportGenerator where
  sections : List ReportSection
  anomalies : List Anomaly
  created_at : String
  deriving DecidableEq, Repr

/-- `_detect_validation_anomalies` (pure over the history list). -/
def detect_validation_anomalies
    (validation_results : List RV.ValidationResult) : List Anomaly :=
  validation_results.flatMap (fun result =>
    (if result.status.value = "critical" then
      [{ category := "resource_validation"
         severity := SeverityLevel.critical
         description := "Critical discrepancy in " ++ result.resource_type.value
         detected_at := result.timestamp
         affected_metric := result.resource_type.value
         expected_value := some result.claimed
         actual_value := some result.actual
         recommendations := result.recommendations }]
    else if result.status.value = "discrepancy" then
      [{ category := "resource_validation"
         severity := SeverityLevel.error
         description := "Discrepancy in " ++ result.resource_type.value ++
           ": " ++ fmtS1 result.variance_percent ++ "%"
         detected_at := result.timestamp
         affected_metric := result.resource_type.value
         expected_value := some result.claimed
         actual_value := some result.actual
         recommendations := result.recommendations }]
    else []) ++
    (if result.discrepancy_cost > 1000 then
      [{ category := "cost_anomaly"
         severity := SeverityLevel.warning
         description := "High cost discrepancy: $" ++ fmt2 result.discrepancy_cost
         detected_at := result.timestamp
         affected_metric := result.resource_type.value ++ "_cost"
         recommendations :=
           ["Review billing methodology",
            "Audit resource metering systems"] }]
    else []))

/-- `_detect_scaling_anomalies` (pure; `datetime.now()` modelled by `ts`). -/
def detect_scaling_anomalies (projections : List MM.ScaleProjection)
    (ts : String) : List Anomaly :=
  projections.flatMap (fun projection =>
    (if projection.scaling_efficiency > 90/100 then
      [{ category := "scaling_efficiency"
         severity := SeverityLevel.warning
         description := "Poor scaling efficiency at " ++
           toString projection.user_count ++ " users"
         detected_at := ts
         affected_metric := "scaling_efficiency"
         actual_value := some projection.scaling_efficiency
         recommendations := projection.recommendations }]
    else []) ++
    (if projection.monthly_cost > 100000 then
      [{ category := "high_cost"
         severity := SeverityLevel.warning
         description := "High projected cost: $" ++ fmt2 projection.monthly_cost
           ++ "/month at " ++ toString projection.user_count ++ " users"
         detected_at := ts
         affected_metric := "monthly_cost"
         actual_value := some projection.monthly_cost
         recommendations :=
           ["Implement cost optimization strategies",
            "Negotiate enterprise pricing",
            "Consider reserved capacity"] }]
    else []) ++
    (if projection.infrastructure_requirements.compute_instances > 100 then
      [{ category := "infrastructure_scale"
         severity := SeverityLevel.info
         description := "Large infrastructure required: " ++
           toString projection.infrastructure_requirements.compute_instances ++
           " compute instances"
         detected_at := ts
         affected_metric := "compute_instances"
         actual_value :=
           some (projection.infrastructure_requirements.compute_instances : ℚ)
         recommendations :=
           ["Consider containerization for better density",
            "Implement auto-scaling",
            "Review resource allocation"] }]
    else []))

/-- `_detect_performance_anomalies` (pure read of the analyzer). -/
def detect_performance_anomalies (analyzer : PA.PerformanceAnalyzer)
    (ts : String) : List Anomaly :=
  let latency_anomalies : List Anomaly :=
    match analyzer.latency_history.getLast? with
    | none => []
    | some latest =>
      (if latest.p95_ms > PA.DEGRADED_LATENCY_P95 then
        [{ category := "performance"
           severity := if latest.p95_ms > 5000 then SeverityLevel.critical
             else SeverityLevel.error
           description := "High P95 latency: " ++ fmt2 latest.p95_ms ++ "ms"
           detected_at := ts
           affected_metric := "p95_latency"
           actual_value := some latest.p95_ms
           recommendations :=
             ["Optimize slow queries and code paths",
              "Implement caching",
              "Scale infrastructure"] }]
      else []) ++
      (if latest.max_ms > latest.avg_ms * 10 then
        [{ category := "performance"
           severity := SeverityLevel.warning
           description := "High latency variability: max " ++ fmt2 latest.max_ms
             ++ "ms vs avg " ++ fmt2 latest.avg_ms ++ "ms"
           detected_at := ts
           affected_metric := "latency_variability"
           recommendations :=
             ["Investigate outlier requests",
              "Check for resource contention",
              "Implement request timeouts"] }]
      else [])
  let throughput_anomalies : List Anomaly :=
    match analyzer.throughput_history.getLast? with
    | none => []
    | some latest =>
      if latest.error_rate > PA.ACCEPTABLE_ERROR_RATE then
        [{ category := "reliability"
           severity := if latest.error_rate > 10/100 then SeverityLevel.critical
             else SeverityLevel.error
           description := "High error rate: " ++ fmt2 (latest.error_rate * 100)
             ++ "%"
           detected_at := ts
           affected_metric := "error_rate"
           actual_value := some (latest.error_rate * 100)
           recommendations :=
             ["Investigate error patterns",
              "Check service dependencies",
              "Implement circuit breakers"] }]
      else []
  latency_anomalies ++ throughput_anomalies

/-- `_detect_benchmarking_anomalies` (pure over the history list). -/
def detect_benchmarking_anomalies
    (comparisons : List BM.BenchmarkComparison) : List Anomaly :=
  comparisons.flatMap (fun comparison =>
    if comparison.result.value = "significantly_below" then
      [{ category := "benchmark"
         severity := SeverityLevel.critical
         description := "Significantly below " ++ comparison.benchmark_name
         detected_at := comparison.timestamp
         affected_metric := comparison.category.value
         expected_value := some comparison.benchmark_value
         actual_value := some comparison.actual_value
         recommendations := comparison.recommendations
         metadata := some { variance_percent := comparison.variance_percent
                            unit := comparison.unit } }]
    else if comparison.result.value = "below_standard" then
      [{ category := "benchmark"
         severity := SeverityLevel.warning
         description := "Below " ++ comparison.benchmark_name
         detected_at := comparison.timestamp
         affected_metric := comparison.category.value
         expected_value := some comparison.benchmark_value
         actual_value := some comparison.actual_value
         recommendations := comparison.recommendations
         metadata := some { variance_percent := comparison.variance_percent
                            unit := comparison.unit } }]
    else [])

/-- `add_validation_section`.  The validator is only read; it is
returned unchanged so the frame property is a stated fact rather than a
typing accident. -/
def add_validation_section (self : ComprehensiveReportGenerator)
    (validator : RV.ResourceValidator) (ts : String) :
    ComprehensiveReportGenerator × RV.ResourceValidator :=
  if validator.validation_history.isEmpty then (self, validator)
  else
    let anomalies := detect_validation_anomalies validator.validation_history
    let self := { self with anomalies := self.anomalies ++ anomalies }
    let recommendations := dedupKeepFirst
      (validator.validation_history.flatMap (·.recommendations))
    let total := validator.validation_history.length
    let discrepancies := validator.validation_history.countP
      (fun r => r.status.value ∈ ["discrepancy", "critical"])
    let total_cost_variance :=
      (validator.validation_history.map (·.discrepancy_cost)).sum
    let summary := "Validated " ++ toString total ++ " resources. Found " ++
      toString discrepancies ++ " discrepancies with total cost impact of $" ++
      fmt2 total_cost_variance ++ "."
    let sec : ReportSection :=
      { title := "Resource Validation"
        summary := summary
        data := .validation total discrepancies (pyRound 2 total_cost_variance)
          (validator.validation_history.map RV.result_to_dict)
        anomalies := anomalies
        recommendations := recommendations
        timestamp := ts }
    ({ self with sections := self.sections ++ [sec] }, validator)

/-- `add_scaling_section`.  `generate_scaling_report` can mutate the
analyzer in general, so the (possibly updated) analyzer is threaded
through and returned. -/
def add_scaling_section (self : ComprehensiveReportGenerator)
    (analyzer : MM.MicroMacroAnalyzer) (ts : String) :
    ComprehensiveReportGenerator × MM.MicroMacroAnalyzer :=
  match analyzer.projections with
  | [] => (self, analyzer)
  | p0 :: ps =>
    let anomalies := detect_scaling_anomalies analyzer.projections ts
    let self := { self with anomalies := self.anomalies ++ anomalies }
    let recommendations :=
      (dedupKeepFirst (analyzer.projections.flatMap (·.recommendations))).take 10
    let _avg_profile := MM.calculate_average_user_profile analyzer
    let largest_projection :=
      ps.foldl (fun best p => if best.user_count < p.user_count then p else best) p0
    let summary := "Analyzed " ++ toString analyzer.user_samples.length ++
      " user samples. Projected to " ++ toString largest_projection.user_count ++
      " users with $" ++ fmt2 largest_projection.monthly_cost ++ "/month cost."
    let (analyzer, data) := MM.generate_scaling_report analyzer ts
    let sec : ReportSection :=
      { title := "Scaling Analysis (Micro to Macro)"
        summary := summary
        data := .scaling data
        anomalies := anomalies
        recommendations := recommendations
        timestamp := ts }
    ({ self with sections := self.sections ++ [sec] }, analyzer)

/-- `add_performance_section`.  `generate_performance_report` mutates
the analyzer (re-appending the latest samples), so the updated analyzer
is threaded through and returned. -/
def add_performance_section (self : ComprehensiveReportGenerator)
    (analyzer : PA.PerformanceAnalyzer) (ts : String) :
    ComprehensiveReportGenerator × PA.PerformanceAnalyzer :=
  if analyzer.latency_history.isEmpty ∧ analyzer.throughput_history.isEmpty then
    (self, analyzer)
  else
    let anomalies := detect_performance_anomalies analyzer ts
    let self := { self with anomalies := self.anomalies ++ anomalies }
    let (analyzer, perf_report) := PA.generate_performance_report analyzer ts
    let recommendations := dedupKeepFirst
      ((perf_report.latency.map (·.recommendations)).getD [] ++
       (perf_report.throughput.map (·.recommendations)).getD [])
    let summary_parts : List String :=
      (match analyzer.latency_history.getLast? with
       | some latest => ["P95 latency: " ++ fmt2 latest.p95_ms ++ "ms"]
       | none => []) ++
      (match analyzer.throughput_history.getLast? with
       | some latest =>
         ["Throughput: " ++ fmt2 latest.requests_per_second ++ " req/s"]
       | none => [])
    let summary := "Performance analysis: " ++ String.intercalate ", " summary_parts
    let sec : ReportSection :=
      { title := "Server Performance Analysis"
        summary := summary
        data := .performance perf_report
        anomalies := anomalies
        recommendations := recommendations
        timestamp := ts }
    ({ self with sections := self.sections ++ [sec] }, analyzer)

/-- `add_benchmarking_section`.  The tool is only read; it is returned
unchanged so the frame property is a stated fact. -/
def add_benchmarking_section (self : ComprehensiveReportGenerator)
    (tool : BM.BenchmarkingTool) (ts : String) :
    ComprehensiveReportGenerator × BM.BenchmarkingTool :=
  if tool.comparison_history.isEmpty then (self, tool)
  else
    let anomalies := detect_benchmarking_anomalies tool.comparison_history
    let self := { self with anomalies := self.anomalies ++ anomalies }
    let recommendations :=
      (dedupKeepFirst (tool.comparison_history.flatMap (·.recommendations))).take 10
    let total_comparisons := tool.comparison_history.length
    let below_standard := tool.comparison_history.countP
      (fun c => c.result.value ∈ ["below_standard", "significantly_below"])
    let summary := "Compared " ++ toString total_comparisons ++
      " metrics against industry standards. " ++ toString below_standard ++
      " metrics below standard."
    let sec : ReportSection :=
      { title := "Benchmarking Against Industry Standards"
        summary := summary
        data := .benchmarking (BM.generate_benchmarking_report tool true ts)
        anomalies := anomalies
        recommendations := recommendations
        timestamp := ts }
    ({ self with sections := self.sections ++ [sec] }, tool)

end RP

/-! ## Call sequences against a `ResourceValidator`

Used to state that the `tolerance_percent` constructor argument never
influences any observable output. -/

/-- One public call to a `ResourceValidator`. -/
inductive ValidatorCall
  | storage (claim : RV.ResourceClaim) (usage : RV.ResourceUsage)
  | compute (claim : RV.ResourceClaim) (usage : RV.ResourceUsage)
  | batch (claims : List RV.ResourceClaim) (usages : List RV.ResourceUsage)

/-- The observable outcome of one call (`none` / `error` for a raised
`ValueError`). -/
inductive ValidatorOutput
  | single (result : Option RV.ValidationResult)
  | batchOk (summary : RV.BatchValidateSummary)
  | batchError (message : String)
  deriving DecidableEq

/-- Execute one call, with Python exception semantics: a raised error
leaves the validator unchanged. -/
def exec_validator_call (v : RV.ResourceValidator) (call : ValidatorCall)
    (ts : String) : RV.ResourceValidator × ValidatorOutput :=
  match call with
  | .storage c u =>
    let (v, r) := RV.run_validate_storage v c u ts
    (v, .single r)
  | .compute c u =>
    let (v, r) := RV.run_validate_compute v c u ts
    (v, .single r)
  | .batch cs us =>
    match RV.batch_validate v cs us ts with
    | .error e => (v, .batchError e)
    | .ok (v, s) => (v, .batchOk s)

/-- Execute a sequence of calls, collecting the outputs. -/
def run_validator_calls (v : RV.ResourceValidator) :
    List ValidatorCall → String → RV.ResourceValidator × List ValidatorOutput
  | [], _ => (v, [])
  | call :: rest, ts =>
    let (v', out) := exec_validator_call v call ts
    let (vf, outs) := run_validator_calls v' rest ts
    (vf, out :: outs)

/-! ## Spec-side bucket-selection rule

`spec_smallest_bucket` is modelled from the spec sentence, for
comparison with the `_get_scale_efficiency` selection translated from
the source. -/

/-- The scale buckets named by the spec: lower bound, level, fixed
efficiency coefficient. -/
def scale_buckets : List (ℤ × MM.ScaleLevel × ℚ) :=
  [(1, .single_user, 1),
   (100, .hundred_users, 95/100),
   (1000, .thousand_users, 90/100),
   (10000, .ten_thousand_users, 85/100),
   (100000, .hundred_thousand_users, 80/100),
   (1000000, .million_users, 75/100),
   (10000000, .ten_million_users, 70/100)]

/-- Modelled from the spec sentence "Scale-level buckets are selected
by the smallest lower bound the user count meets or exceeds": among the
buckets whose lower bound the user count meets or exceeds, pick the one
with the smallest lower bound. -/
def spec_smallest_bucket (user_count : ℤ) : Option (MM.ScaleLevel × ℚ) :=
  match scale_buckets.filter (fun e => e.1 ≤ user_count) with
  | [] => none
  | e :: es =>
    some ((es.foldl (fun best q => if q.1 < best.1 then q else best) e).2)

/-! ## Concrete test fixtures for counterexamples and witnesses -/

/-- A user profile consuming only 100 AI tokens per month. -/
def base_ai_only : MM.UserResourceMetrics :=
  { user_id := "u", ai_inference_tokens := 100 }

/-- A fresh analyzer. -/
def mm0 : MM.MicroMacroAnalyzer := { user_samples := [], projections := [] }

/-- A fresh validator with the default 5% tolerance argument. -/
def rv0 : RV.ResourceValidator :=
  { tolerance_percent := 5, validation_history := [] }

/-- A storage claim of 1000 GB costing $23. -/
def claim_storage_1000 : RV.ResourceClaim :=
  { resource_type := .storage, claimed_amount := 1000, unit := "GB"
    billing_period_start := "2024-01-01", billing_period_end := "2024-01-31"
    cost := 23 }

/-- A measured storage usage of 1000 GB. -/
def usage_storage_1000 : RV.ResourceUsage :=
  { resource_type := .storage, actual_amount := 1000, unit := "GB"
    measurement_period_start := "2024-01-01"
    measurement_period_end := "2024-01-31", samples_count := 30 }

/-- A storage claim with a (degenerate) negative claimed amount. -/
def claim_storage_neg : RV.ResourceClaim :=
  { resource_type := .storage, claimed_amount := -5, unit := "GB"
    billing_period_start := "2024-01-01", billing_period_end := "2024-01-31"
    cost := 10 }

/-- A measured storage usage of 0 GB. -/
def usage_storage_zero : RV.ResourceUsage :=
  { resource_type := .storage, actual_amount := 0, unit := "GB"
    measurement_period_start := "2024-01-01"
    measurement_period_end := "2024-01-31", samples_count := 30 }

/-- A compute claim of 500 CPU-hours costing $48. -/
def claim_compute_500 : RV.ResourceClaim :=
  { resource_type := .compute, claimed_amount := 500, unit := "CPU-hours"
    billing_period_start := "2024-01-01", billing_period_end := "2024-01-31"
    cost := 48 }

/-- A measured compute usage of 400 CPU-hours. -/
def usage_compute_400 : RV.ResourceUsage :=
  { resource_type := .compute, actual_amount := 400, unit := "CPU-hours"
    measurement_period_start := "2024-01-01"
    measurement_period_end := "2024-01-31", samples_count := 30 }

/-- A single concrete latency sample. -/
def latency_sample : PA.LatencyMetrics :=
  { p50_ms := 50, p90_ms := 80, p95_ms := 90, p99_ms := 120
    min_ms := 10, max_ms := 150, avg_ms := 55, sample_count := 1000
    measurement_period_start := "2024-01-01"
    measurement_period_end := "2024-01-02" }

/-- A performance analyzer holding exactly one latency sample. -/
def pa_one_latency : PA.PerformanceAnalyzer :=
  { latency_history := [latency_sample], throughput_history := []
    load_test_results := [] }

/-- A fresh report generator. -/
def gen0 : RP.ComprehensiveReportGenerator :=
  { sections := [], anomalies := [], created_at := "2024-01-01T00:00:00" }

/-- A fresh benchmarking tool. -/
def bt0 : BM.BenchmarkingTool :=
  { custom_baselines := [], comparison_history := [] }

/-- The industry-standard throughput benchmark used as C1 fixture. -/
def tp_bench : BM.Benchmark :=
  { name := "Web Service Throughput", category := .throughput, value := 100
    unit := "req/s/CPU", source := "Industry Best Practices"
    description := "Typical web service throughput per CPU" }

/-- A COST-category benchmark of value 4 (the static table has no
COST-category entry; `_compare_values` is category generic). -/
def cost_bench : BM.Benchmark :=
  { name := "Custom Cost", category := .cost, value := 4
    unit := "$", source := "Custom Baseline", description := "" }

/-- C7: on an analyzer with zero user samples, `generate_scaling_report` returns the `{error, timestamp}` payload (the embedding is a total function, so no exception is possible), leaving the analyzer unchanged. -/
theorem C7_theorem (st : MM.MicroMacroAnalyzer) (ts : String)
    (h : st.user_samples = []) :
    MM.generate_scaling_report st ts =
      (st, .error "No user samples available for analysis" ts) := by
  simp [MM.generate_scaling_report, h]

theorem C7_witness :
    mm0.user_samples = [] ∧
    MM.generate_scaling_report mm0 "2024-01-01T00:00:00" =
      (mm0, .error "No user samples available for analysis"
        "2024-01-01T00:00:00") :=
  ⟨rfl, C7_theorem mm0 "2024-01-01T00:00:00" rfl⟩

/-- Characterization of `validate_storage` on matching resource types. -/
lemma validate_storage_spec (v : RV.ResourceValidator) (c : RV.ResourceClaim)
    (u : RV.ResourceUsage) (ts : String)
    (hc : c.resource_type = .storage) (hu : u.resource_type = .storage) :
    ∃ v' r, RV.validate_storage v c u ts = .ok (v', r) ∧
      v' = { v with validation_history := v.validation_history ++ [r] } ∧
      r.claimed = RV.normalize_storage c.claimed_amount c.unit ∧
      r.actual = RV.normalize_storage u.actual_amount u.unit ∧
      r.variance = r.claimed - r.actual ∧
      r.variance_percent =
        (if r.claimed > 0 then r.variance / r.claimed * 100 else 0) ∧
      r.status = RV.determine_status |r.variance_percent| ∧
      r.discrepancy_cost =
        |r.variance| * (if r.claimed > 0 then c.cost / r.claimed else 0) := by
  unfold RV.validate_storage
  rw [if_neg (by simp [hc]), if_neg (by simp [hu])]
  exact ⟨_, _, rfl, rfl, rfl, rfl, rfl, rfl, rfl, rfl⟩

/-- Characterization of `validate_compute` on matching resource types. -/
lemma validate_compute_spec (v : RV.ResourceValidator) (c : RV.ResourceClaim)
    (u : RV.ResourceUsage) (ts : String)
    (hc : c.resource_type = .compute) (hu : u.resource_type = .compute) :
    ∃ v' r, RV.validate_compute v c u ts = .ok (v', r) ∧
      v' = { v with validation_history := v.validation_history ++ [r] } ∧
      r.claimed = RV.normalize_compute c.claimed_amount c.unit ∧
      r.actual = RV.normalize_compute u.actual_amount u.unit ∧
      r.variance = r.claimed - r.actual ∧
      r.variance_percent =
        (if r.claimed > 0 then r.variance / r.claimed * 100 else 0) ∧
      r.status = RV.determine_status |r.variance_percent| ∧
      r.discrepancy_cost =
        |r.variance| * (if r.claimed > 0 then c.cost / r.claimed else 0) := by
  unfold RV.validate_compute
  rw [if_neg (by simp [hc]), if_neg (by simp [hu])]
  exact ⟨_, _, rfl, rfl, rfl, rfl, rfl, rfl, rfl, rfl⟩

/-- C5: for storage claim/usage pairs with matching resource types, `validate_storage` assigns status from the absolute variance percentage by the fixed ladder (below 5 VALID, below 10 WARNING, below 25 DISCREPANCY, otherwise CRITICAL), and equal normalized claimed and actual amounts yield status VALID with variance 0 and variance percent 0. -/
theorem C5_theorem (v : RV.ResourceValidator) (claim : RV.ResourceClaim)
    (usage : RV.ResourceUsage) (ts : String)
    (hc : claim.resource_type = .storage)
    (hu : usage.resource_type = .storage) :
    ∃ v' r, RV.validate_storage v claim usage ts = .ok (v', r) ∧
      r.status =
        (if |r.variance_percent| < 5 then RV.ValidationStatus.valid
         else if |r.variance_percent| < 10 then .warning
         else if |r.variance_percent| < 25 then .discrepancy
         else .critical) ∧
      (RV.normalize_storage claim.claimed_amount claim.unit =
         RV.normalize_storage usage.actual_amount usage.unit →
        r.status = .valid ∧ r.variance = 0 ∧ r.variance_percent = 0) := by
  obtain ⟨v', r, hE, _, hcl, hac, hvar, hvp, hst, _⟩ :=
    validate_storage_spec v claim usage ts hc hu
  refine ⟨v', r, hE, ?_, ?_⟩
  · rw [hst]
    unfold RV.determine_status RV.WARNING_THRESHOLD RV.DISCREPANCY_THRESHOLD
      RV.CRITICAL_THRESHOLD
    rfl
  · intro heq
    have hvar0 : r.variance = 0 := by rw [hvar, hcl, hac, heq, sub_self]
    have hvp0 : r.variance_percent = 0 := by
      rw [hvp, hvar0]
      split <;> simp
    refine ⟨?_, hvar0, hvp0⟩
    rw [hst, hvp0]
    norm_num [RV.determine_status, RV.WARNING_THRESHOLD]

theorem C5_witness :
    claim_storage_1000.resource_type = .storage ∧
    usage_storage_1000.resource_type = .storage ∧
    (∃ v' r, RV.validate_storage rv0 claim_storage_1000 usage_storage_1000
        "2024-02-01T00:00:00" = .ok (v', r) ∧
      r.status =
        (if |r.variance_percent| < 5 then RV.ValidationStatus.valid
         else if |r.variance_percent| < 10 then .warning
         else if |r.variance_percent| < 25 then .discrepancy
         else .critical) ∧
      (RV.normalize_storage claim_storage_1000.claimed_amount
          claim_storage_1000.unit =
         RV.normalize_storage usage_storage_1000.actual_amount
          usage_storage_1000.unit →
        r.status = .valid ∧ r.variance = 0 ∧ r.variance_percent = 0)) :=
  ⟨rfl, rfl,
   C5_theorem rv0 claim_storage_1000 usage_storage_1000
     "2024-02-01T00:00:00" rfl rfl⟩

/-- C6: on a resource-type mismatch, `validate_storage` (expecting STORAGE) and `validate_compute` (expecting COMPUTE) fail immediately with no partial result: the validator object, and hence `validation_history`, is exactly as before the call. -/
theorem C6_theorem (v : RV.ResourceValidator) (claim : RV.ResourceClaim)
    (usage : RV.ResourceUsage) (ts : String) :
    (claim.resource_type ≠ .storage ∨ usage.resource_type ≠ .storage →
      RV.run_validate_storage v claim usage ts = (v, none)) ∧
    (claim.resource_type ≠ .compute ∨ usage.resource_type ≠ .compute →
      RV.run_validate_compute v claim usage ts = (v, none)) := by
  constructor
  · rintro (h | h) <;>
      unfold RV.run_validate_storage RV.validate_storage
    · rw [if_pos h]
    · by_cases hc : claim.resource_type = RV.ResourceType.storage
      · rw [if_neg (by simp [hc]), if_pos h]
      · rw [if_pos hc]
  · rintro (h | h) <;>
      unfold RV.run_validate_compute RV.validate_compute
    · rw [if_pos h]
    · by_cases hc : claim.resource_type = RV.ResourceType.compute
      · rw [if_neg (by simp [hc]), if_pos h]
      · rw [if_pos hc]

theorem C6_witness :
    (claim_compute_500.resource_type ≠ RV.ResourceType.storage ∨
      usage_storage_1000.resource_type ≠ RV.ResourceType.storage) ∧
    RV.run_validate_storage rv0 claim_compute_500 usage_storage_1000
      "2024-02-01T00:00:00" = (rv0, none) ∧
    (claim_storage_1000.resource_type ≠ RV.ResourceType.compute ∨
      usage_compute_400.resource_type ≠ RV.ResourceType.compute) ∧
    RV.run_validate_compute rv0 claim_storage_1000 usage_compute_400
      "2024-02-01T00:00:00" = (rv0, none) :=
  ⟨Or.inl (by decide),
   (C6_theorem rv0 claim_compute_500 usage_storage_1000
       "2024-02-01T00:00:00").1 (Or.inl (by decide)),
   Or.inl (by decide),
   (C6_theorem rv0 claim_storage_1000 usage_compute_400
       "2024-02-01T00:00:00").2 (Or.inl (by decide))⟩

/-- `_normalize_storage` is the identity on the unit string "GB". -/
lemma normalize_storage_gb (a : ℚ) : RV.normalize_storage a "GB" = a := by
  unfold RV.normalize_storage
  rw [if_pos (by decide)]

/-- `_normalize_compute` is the identity on the unit string "CPU-hours". -/
lemma normalize_compute_cpu_hours (a : ℚ) :
    RV.normalize_compute a "CPU-hours" = a := by
  unfold RV.normalize_compute
  rw [if_pos (by decide)]

/-- C8 counterexample: for a degenerate negative claimed amount (claim of -5 GB against usage of 0 GB) the code returns variance percent 0, while the formula stated by the claim evaluates to 100. -/
theorem C8_counterexample :
    (∃ v' r, RV.validate_storage rv0 claim_storage_neg usage_storage_zero
        "2024-02-01T00:00:00" = .ok (v', r) ∧
      r.variance_percent = 0 ∧ r.discrepancy_cost = 0) ∧
    (RV.normalize_storage claim_storage_neg.claimed_amount claim_storage_neg.unit -
       RV.normalize_storage usage_storage_zero.actual_amount usage_storage_zero.unit) /
      RV.normalize_storage claim_storage_neg.claimed_amount claim_storage_neg.unit
        * 100 = 100 ∧
    (0 : ℚ) ≠ 100 := by
  obtain ⟨v', r, hE, _, hcl, _, _, hvp, _, hdc⟩ :=
    validate_storage_spec rv0 claim_storage_neg usage_storage_zero
      "2024-02-01T00:00:00" rfl rfl
  have hcl5 : r.claimed = -5 := by
    rw [hcl]
    show RV.normalize_storage (-5) "GB" = -5
    rw [normalize_storage_gb]
  have hnpos : ¬ (r.claimed > 0) := by rw [hcl5]; norm_num
  have hvp0 : r.variance_percent = 0 := by rw [hvp, if_neg hnpos]
  refine ⟨⟨v', r, hE, hvp0, ?_⟩, ?_, by norm_num⟩
  · rw [hdc, if_neg hnpos, mul_zero]
  · show ((RV.normalize_storage (-5) "GB" - RV.normalize_storage 0 "GB") /
      RV.normalize_storage (-5) "GB") * 100 = 100
    rw [normalize_storage_gb, normalize_storage_gb]
    norm_num

/-- C8 (amended): for matching resource types the validators compute variance as normalized claimed minus normalized actual; when the normalized claimed amount is positive, variance percent is variance over claimed times 100 and discrepancy cost is absolute variance times the unit cost; when the normalized claimed amount is zero or negative, both are 0 instead of a division error. -/
theorem C8_theorem (v : RV.ResourceValidator) (claim : RV.ResourceClaim)
    (usage : RV.ResourceUsage) (ts : String) :
    (claim.resource_type = .storage → usage.resource_type = .storage →
      ∃ v' r, RV.validate_storage v claim usage ts = .ok (v', r) ∧
        (let cl := RV.normalize_storage claim.claimed_amount claim.unit
         let ac := RV.normalize_storage usage.actual_amount usage.unit
         r.variance = cl - ac ∧
         (0 < cl → r.variance_percent = (cl - ac) / cl * 100 ∧
           r.discrepancy_cost = |cl - ac| * (claim.cost / cl)) ∧
         (cl ≤ 0 → r.variance_percent = 0 ∧ r.discrepancy_cost = 0))) ∧
    (claim.resource_type = .compute → usage.resource_type = .compute →
      ∃ v' r, RV.validate_compute v claim usage ts = .ok (v', r) ∧
        (let cl := RV.normalize_compute claim.claimed_amount claim.unit
         let ac := RV.normalize_compute usage.actual_amount usage.unit
         r.variance = cl - ac ∧
         (0 < cl → r.variance_percent = (cl - ac) / cl * 100 ∧
           r.discrepancy_cost = |cl - ac| * (claim.cost / cl)) ∧
         (cl ≤ 0 → r.variance_percent = 0 ∧ r.discrepancy_cost = 0))) := by
  constructor
  · intro hc hu
    obtain ⟨v', r, hE, _, hcl, hac, hvar, hvp, _, hdc⟩ :=
      validate_storage_spec v claim usage ts hc hu
    refine ⟨v', r, hE, ?_, ?_, ?_⟩
    · rw [hvar, hcl, hac]
    · intro hpos
      rw [← hcl] at hpos
      constructor
      · rw [hvp, if_pos hpos, hvar, hcl, hac]
      · rw [hdc, if_pos hpos, hvar, hcl, hac]
    · intro hle
      rw [← hcl] at hle
      have hnpos : ¬ (r.claimed > 0) := not_lt.mpr hle
      exact ⟨by rw [hvp, if_neg hnpos], by rw [hdc, if_neg hnpos, mul_zero]⟩
  · intro hc hu
    obtain ⟨v', r, hE, _, hcl, hac, hvar, hvp, _, hdc⟩ :=
      validate_compute_spec v claim usage ts hc hu
    refine ⟨v', r, hE, ?_, ?_, ?_⟩
    · rw [hvar, hcl, hac]
    · intro hpos
      rw [← hcl] at hpos
      constructor
      · rw [hvp, if_pos hpos, hvar, hcl, hac]
      · rw [hdc, if_pos hpos, hvar, hcl, hac]
    · intro hle
      rw [← hcl] at hle
      have hnpos : ¬ (r.claimed > 0) := not_lt.mpr hle
      exact ⟨by rw [hvp, if_neg hnpos], by rw [hdc, if_neg hnpos, mul_zero]⟩

theorem C8_witness :
    claim_storage_1000.resource_type = .storage ∧
    usage_storage_1000.resource_type = .storage ∧
    (∃ v' r, RV.validate_storage rv0 claim_storage_1000 usage_storage_1000
        "2024-02-01T00:00:00" = .ok (v', r) ∧
      (let cl := RV.normalize_storage claim_storage_1000.claimed_amount
         claim_storage_1000.unit
       let ac := RV.normalize_storage usage_storage_1000.actual_amount
         usage_storage_1000.unit
       r.variance = cl - ac ∧
       (0 < cl → r.variance_percent = (cl - ac) / cl * 100 ∧
         r.discrepancy_cost = |cl - ac| * (claim_storage_1000.cost / cl)) ∧
       (cl ≤ 0 → r.variance_percent = 0 ∧ r.discrepancy_cost = 0))) :=
  ⟨rfl, rfl,
   (C8_theorem rv0 claim_storage_1000 usage_storage_1000
       "2024-02-01T00:00:00").1 rfl rfl⟩

/-- C9: for every base user profile, `project_multiple_scales` returns exactly 7 projections with user counts 1, 100, 1000, 10000, 100000, 1000000, 10000000 in ascending order, and their scaling efficiencies are monotonically non-increasing along that order. -/
theorem C9_theorem (st : MM.MicroMacroAnalyzer)
    (base : Option MM.UserResourceMetrics) :
    ((MM.project_multiple_scales st base).2.map (·.user_count)) =
      [1, 100, 1000, 10000, 100000, 1000000, 10000000] ∧
    ((MM.project_multiple_scales st base).2.map (·.scaling_efficiency)) =
      [1, 95/100, 90/100, 85/100, 80/100, 75/100, 70/100] ∧
    List.Chain' (· ≥ ·)
      ((MM.project_multiple_scales st base).2.map (·.scaling_efficiency)) := by
  have hmap :
      ((MM.project_multiple_scales st base).2.map
          (fun p => (p.user_count, p.scaling_efficiency))) =
        [(1, 1), (100, 95/100), (1000, 90/100), (10000, 85/100),
         (100000, 80/100), (1000000, 75/100), (10000000, 70/100)] := by
    norm_num [MM.project_multiple_scales, MM.scale_targets, MM.project_to_scale,
      MM.get_scale_efficiency, MM.BASE_EFFICIENCY, MM.SCALE_100_EFFICIENCY,
      MM.SCALE_1K_EFFICIENCY, MM.SCALE_10K_EFFICIENCY, MM.SCALE_100K_EFFICIENCY,
      MM.SCALE_1M_EFFICIENCY, MM.SCALE_10M_EFFICIENCY]
  have h1 : ((MM.project_multiple_scales st base).2.map (·.user_count)) =
      [1, 100, 1000, 10000, 100000, 1000000, 10000000] := by
    have := congrArg (List.map Prod.fst) hmap
    simpa [List.map_map, Function.comp] using this
  have h2 : ((MM.project_multiple_scales st base).2.map (·.scaling_efficiency)) =
      [1, 95/100, 90/100, 85/100, 80/100, 75/100, 70/100] := by
    have := congrArg (List.map Prod.snd) hmap
    simpa [List.map_map, Function.comp] using this
  refine ⟨h1, h2, ?_⟩
  rw [h2]
  norm_num [List.chain'_cons, List.chain'_singleton]

/-- C3 (amended): for every user count and base profile there is a single pre-rounding monthly cost m with monthly_cost = round(m, 2) and annual_cost = round(m * 12, 2): the times-12 identity holds before each field rounds, not between the rounded fields. -/
theorem C3_theorem (st : MM.MicroMacroAnalyzer) (n : ℤ)
    (base : Option MM.UserResourceMetrics) :
    ∃ m : ℚ,
      (MM.project_to_scale st n base).2.monthly_cost = pyRound 2 m ∧
      (MM.project_to_scale st n base).2.annual_cost = pyRound 2 (m * 12) := by
  refine ⟨MM.projection_monthly_cost
    (base.getD (MM.calculate_average_user_profile st)) n
    (MM.get_scale_efficiency n).2, ?_, ?_⟩ <;>
    simp [MM.project_to_scale]

/-- C3 counterexample: for a profile of 100 AI tokens per month at one user, the stored annual_cost is 0.01 while the stored monthly_cost is 0, so annual_cost differs from monthly_cost * 12 on the record as stored. -/
theorem C3_counterexample :
    (MM.project_to_scale mm0 1 (some base_ai_only)).2.annual_cost = 1/100 ∧
    (MM.project_to_scale mm0 1 (some base_ai_only)).2.monthly_cost = 0 ∧
    ((1 : ℚ)/100 ≠ 0 * 12) := by
  have hm : MM.projection_monthly_cost base_ai_only 1
      (MM.get_scale_efficiency 1).2 = 1/1000 := by
    norm_num [MM.projection_monthly_cost, MM.get_scale_efficiency,
      MM.BASE_EFFICIENCY, base_ai_only, pyInt, MM.STORAGE_COST_PER_GB,
      MM.COMPUTE_COST_PER_HOUR, MM.BANDWIDTH_COST_PER_GB,
      MM.API_COST_PER_1K_CALLS, MM.AI_TOKEN_COST_PER_1M]
  refine ⟨?_, ?_, by norm_num⟩
  · show pyRound 2 (MM.projection_monthly_cost base_ai_only 1
      (MM.get_scale_efficiency 1).2 * 12) = 1/100
    rw [hm]
    norm_num [pyRound, roundHalfEven]
  · show pyRound 2 (MM.projection_monthly_cost base_ai_only 1
      (MM.get_scale_efficiency 1).2) = 0
    rw [hm]
    norm_num [pyRound, roundHalfEven]

/-- C4 counterexample: at 100 users the code selects the HUNDRED_USERS bucket with efficiency 0.95, while the smallest lower bound that 100 meets or exceeds is 1, whose bucket has efficiency 1.00. -/
theorem C4_counterexample :
    MM.get_scale_efficiency 100 = (.hundred_users, 95/100) ∧
    spec_smallest_bucket 100 = some (.single_user, 1) ∧
    ((MM.ScaleLevel.hundred_users, (95 : ℚ)/100) ≠
      (MM.ScaleLevel.single_user, (1 : ℚ))) := by
  refine ⟨?_, ?_, by simp⟩
  · norm_num [MM.get_scale_efficiency, MM.SCALE_100_EFFICIENCY]
  · norm_num [spec_smallest_bucket, scale_buckets, List.filter]

/-- C4 (amended): for every user count of at least 1, `_get_scale_efficiency` selects the bucket whose lower bound is the LARGEST lower bound the count meets or exceeds, with the fixed per-bucket efficiency table (1 user 1.00, 100 0.95, 1000 0.90, 10000 0.85, 100000 0.80, 1000000 0.75, 10000000 0.70) and no interpolation. -/
theorem C4_theorem (n : ℤ) (h : 1 ≤ n) :
    (∃ b : ℤ, (b, MM.get_scale_efficiency n) ∈ scale_buckets ∧ b ≤ n ∧
      ∀ e ∈ scale_buckets, e.1 ≤ n → e.1 ≤ b) ∧
    MM.get_scale_efficiency 1 = (.single_user, 1) ∧
    MM.get_scale_efficiency 100 = (.hundred_users, 95/100) ∧
    MM.get_scale_efficiency 1000 = (.thousand_users, 90/100) ∧
    MM.get_scale_efficiency 10000 = (.ten_thousand_users, 85/100) ∧
    MM.get_scale_efficiency 100000 = (.hundred_thousand_users, 80/100) ∧
    MM.get_scale_efficiency 1000000 = (.million_users, 75/100) ∧
    MM.get_scale_efficiency 10000000 = (.ten_million_users, 70/100) := by
  refine ⟨?_, ?_, ?_, ?_, ?_, ?_, ?_, ?_⟩
  case refine_2 => norm_num [MM.get_scale_efficiency, MM.BASE_EFFICIENCY]
  case refine_3 => norm_num [MM.get_scale_efficiency, MM.SCALE_100_EFFICIENCY]
  case refine_4 => norm_num [MM.get_scale_efficiency, MM.SCALE_1K_EFFICIENCY]
  case refine_5 => norm_num [MM.get_scale_efficiency, MM.SCALE_10K_EFFICIENCY]
  case refine_6 => norm_num [MM.get_scale_efficiency, MM.SCALE_100K_EFFICIENCY]
  case refine_7 => norm_num [MM.get_scale_efficiency, MM.SCALE_1M_EFFICIENCY]
  case refine_8 => norm_num [MM.get_scale_efficiency, MM.SCALE_10M_EFFICIENCY]
  unfold MM.get_scale_efficiency
  split_ifs with h1 h2 h3 h4 h5 h6 <;>
    [exact ⟨10000000,
      by simp [scale_buckets, MM.SCALE_10M_EFFICIENCY], by omega,
      by intro e he hle
         simp only [scale_buckets, List.mem_cons, List.not_mem_nil,
           or_false] at he
         rcases he with rfl | rfl | rfl | rfl | rfl | rfl | rfl <;>
           dsimp only at hle ⊢ <;> omega⟩;
     exact ⟨1000000,
      by simp [scale_buckets, MM.SCALE_1M_EFFICIENCY], by omega,
      by intro e he hle
         simp only [scale_buckets, List.mem_cons, List.not_mem_nil,
           or_false] at he
         rcases he with rfl | rfl | rfl | rfl | rfl | rfl | rfl <;>
           dsimp only at hle ⊢ <;> omega⟩;
     exact ⟨100000,
      by simp [scale_buckets, MM.SCALE_100K_EFFICIENCY], by omega,
      by intro e he hle
         simp only [scale_buckets, List.mem_cons, List.not_mem_nil,
           or_false] at he
         rcases he with rfl | rfl | rfl | rfl | rfl | rfl | rfl <;>
           dsimp only at hle ⊢ <;> omega⟩;
     exact ⟨10000,
      by simp [scale_buckets, MM.SCALE_10K_EFFICIENCY], by omega,
      by intro e he hle
         simp only [scale_buckets, List.mem_cons, List.not_mem_nil,
           or_false] at he
         rcases he with rfl | rfl | rfl | rfl | rfl | rfl | rfl <;>
           dsimp only at hle ⊢ <;> omega⟩;
     exact ⟨1000,
      by simp [scale_buckets, MM.SCALE_1K_EFFICIENCY], by omega,
      by intro e he hle
         simp only [scale_buckets, List.mem_cons, List.not_mem_nil,
           or_false] at he
         rcases he with rfl | rfl | rfl | rfl | rfl | rfl | rfl <;>
           dsimp only at hle ⊢ <;> omega⟩;
     exact ⟨100,
      by simp [scale_buckets, MM.SCALE_100_EFFICIENCY], by omega,
      by intro e he hle
         simp only [scale_buckets, List.mem_cons, List.not_mem_nil,
           or_false] at he
         rcases he with rfl | rfl | rfl | rfl | rfl | rfl | rfl <;>
           dsimp only at hle ⊢ <;> omega⟩;
     exact ⟨1,
      by simp [scale_buckets, MM.BASE_EFFICIENCY], by omega,
      by intro e he hle
         simp only [scale_buckets, List.mem_cons, List.not_mem_nil,
           or_false] at he
         rcases he with rfl | rfl | rfl | rfl | rfl | rfl | rfl <;>
           dsimp only at hle ⊢ <;> omega⟩]

theorem C4_witness :
    (1 : ℤ) ≤ 1000 ∧
    ((∃ b : ℤ, (b, MM.get_scale_efficiency 1000) ∈ scale_buckets ∧ b ≤ 1000 ∧
        ∀ e ∈ scale_buckets, e.1 ≤ 1000 → e.1 ≤ b) ∧
      MM.get_scale_efficiency 1 = (.single_user, 1) ∧
      MM.get_scale_efficiency 100 = (.hundred_users, 95/100) ∧
      MM.get_scale_efficiency 1000 = (.thousand_users, 90/100) ∧
      MM.get_scale_efficiency 10000 = (.ten_thousand_users, 85/100) ∧
      MM.get_scale_efficiency 100000 = (.hundred_thousand_users, 80/100) ∧
      MM.get_scale_efficiency 1000000 = (.million_users, 75/100) ∧
      MM.get_scale_efficiency 10000000 = (.ten_million_users, 70/100)) :=
  ⟨by norm_num, C4_theorem 1000 (by norm_num)⟩

/-- C1 counterexample: via `batch_compare`, a metric of 115 against the THROUGHPUT benchmark of 100 (exactly 15 percent above) is classified meets_standard, not exceeds_standard. -/
theorem C1_counterexample :
    ((BM.batch_compare bt0 [("web_rps", 115)]
        [("web_rps", "throughput_per_cpu_web")] "ts").2.comparisons.map
      (·.result)) = ["meets_standard"] ∧
    ((BM.batch_compare bt0 [("web_rps", 115)]
        [("web_rps", "throughput_per_cpu_web")] "ts").2.comparisons.map
      (·.variance_percent)) = [15] ∧
    (BM.INDUSTRY_STANDARDS.lookup "throughput_per_cpu_web").map
      (fun b => (b.category, b.value)) = some (.throughput, 100) ∧
    (115 : ℚ) = 100 * (1 + 15/100) ∧
    "meets_standard" ≠ "exceeds_standard" := by
  have hm : (([("web_rps", "throughput_per_cpu_web")] :
      List (String × String)).lookup "web_rps") =
      some "throughput_per_cpu_web" := rfl
  have hs : BM.INDUSTRY_STANDARDS.lookup "throughput_per_cpu_web" =
      some tp_bench := rfl
  have hvp : (BM.compare_values bt0 "web_rps" 115
      tp_bench "ts").2.variance_percent = 15 := by
    norm_num [BM.compare_values, tp_bench]
  have hres : (BM.compare_values bt0 "web_rps" 115 tp_bench "ts").2.result =
      .meets_standard := by
    norm_num [BM.compare_values, BM.determine_comparison_result, tp_bench]
    decide
  have hcmp : (BM.batch_compare bt0 [("web_rps", 115)]
      [("web_rps", "throughput_per_cpu_web")] "ts").2.comparisons =
      [BM.comparison_to_dict
        (BM.compare_values bt0 "web_rps" 115 tp_bench "ts").2] := by
    simp [BM.batch_compare, BM.compare_against_standard, hm, hs]
  refine ⟨?_, ?_, by rw [hs]; rfl, by norm_num, by simp⟩
  · rw [hcmp]
    simp [BM.comparison_to_dict, hres, BM.ComparisonResult.value]
  · rw [hcmp]
    simp only [List.map_cons, List.map_nil]
    rw [show (BM.comparison_to_dict
        (BM.compare_values bt0 "web_rps" 115
          tp_bench "ts").2).variance_percent =
      pyRound 2 (BM.compare_values bt0 "web_rps" 115
        tp_bench "ts").2.variance_percent from rfl]
    rw [hvp]
    norm_num [pyRound, roundHalfEven]

/-- C1 (amended): the comparison logic used by `batch_compare` classifies a metric 25 percent above a COST-category benchmark as significantly_below, and a metric 15 percent above a THROUGHPUT-category benchmark as meets_standard. -/
theorem C1_theorem (st : BM.BenchmarkingTool) (name : String)
    (b : BM.Benchmark) (actual : ℚ) (ts : String) :
    (b.category = .cost → 0 < b.value → actual = b.value * (1 + 25/100) →
      (BM.compare_values st name actual b ts).2.result =
        .significantly_below) ∧
    (b.category = .throughput → 0 < b.value → actual = b.value * (1 + 15/100) →
      (BM.compare_values st name actual b ts).2.result = .meets_standard) := by
  constructor
  · intro hcat hv hact
    have hne : b.value ≠ 0 := ne_of_gt hv
    have hvp : (actual - b.value) / b.value * 100 = 25 := by
      rw [hact]
      field_simp
      ring
    show (BM.compare_values st name actual b ts).2.result = _
    simp only [BM.compare_values, if_pos hne] at *
    rw [hvp, hcat]
    norm_num [BM.determine_comparison_result]
    try decide
  · intro hcat hv hact
    have hne : b.value ≠ 0 := ne_of_gt hv
    have hvp : (actual - b.value) / b.value * 100 = 15 := by
      rw [hact]
      field_simp
      ring
    show (BM.compare_values st name actual b ts).2.result = _
    simp only [BM.compare_values, if_pos hne] at *
    rw [hvp, hcat]
    norm_num [BM.determine_comparison_result]
    try decide

theorem C1_witness :
    (cost_bench.category = .cost ∧ 0 < cost_bench.value ∧
      (5 : ℚ) = cost_bench.value * (1 + 25/100) ∧
      (BM.compare_values bt0 "storage_cost" 5 cost_bench "ts").2.result =
        .significantly_below) ∧
    (tp_bench.category = .throughput ∧ 0 < tp_bench.value ∧
      (115 : ℚ) = tp_bench.value * (1 + 15/100) ∧
      (BM.compare_values bt0 "web_rps" 115 tp_bench "ts").2.result =
        .meets_standard) :=
  ⟨⟨rfl, by norm_num [cost_bench], by norm_num [cost_bench],
    (C1_theorem bt0 "storage_cost" cost_bench 5 "ts").1 rfl
      (by norm_num [cost_bench]) (by norm_num [cost_bench])⟩,
   ⟨rfl, by norm_num [tp_bench], by norm_num [tp_bench],
    (C1_theorem bt0 "web_rps" tp_bench 115 "ts").2 rfl
      (by norm_num [tp_bench]) (by norm_num [tp_bench])⟩⟩

/-- `generate_scaling_report` does not mutate an analyzer that already
holds projections. -/
lemma generate_scaling_report_fst (st : MM.MicroMacroAnalyzer) (ts : String)
    (h : st.projections ≠ []) : (MM.generate_scaling_report st ts).1 = st := by
  have hp : st.projections.isEmpty = false := by
    simpa [List.isEmpty_iff] using h
  unfold MM.generate_scaling_report
  by_cases hs : st.user_samples.isEmpty <;> simp [hs, hp]

/-- State effect of `analyze_latency`: append the sample. -/
lemma analyze_latency_fst (st : PA.PerformanceAnalyzer)
    (m : PA.LatencyMetrics) (ts : String) :
    (PA.analyze_latency st m ts).1 =
      { st with latency_history := st.latency_history ++ [m] } := rfl

/-- State effect of `analyze_throughput`: append the sample. -/
lemma analyze_throughput_fst (st : PA.PerformanceAnalyzer)
    (m : PA.ThroughputMetrics) (ts : String) :
    (PA.analyze_throughput st m ts).1 =
      { st with throughput_history := st.throughput_history ++ [m] } := rfl

/-- State effect of `generate_performance_report`: the latest latency
and throughput samples (when present) are re-appended to their
histories; nothing else changes. -/
lemma generate_performance_report_fst (st : PA.PerformanceAnalyzer)
    (ts : String) :
    (PA.generate_performance_report st ts).1 =
      { st with
        latency_history :=
          st.latency_history ++ st.latency_history.getLast?.toList
        throughput_history :=
          st.throughput_history ++ st.throughput_history.getLast?.toList } := by
  unfold PA.generate_performance_report
  cases hl : st.latency_history.getLast? <;>
    cases ht : st.throughput_history.getLast? <;>
      simp [hl, ht, analyze_latency_fst, analyze_throughput_fst]

/-- `add_validation_section` never mutates the validator. -/
lemma add_validation_section_snd (g : RP.ComprehensiveReportGenerator)
    (v : RV.ResourceValidator) (ts : String) :
    (RP.add_validation_section g v ts).2 = v := by
  unfold RP.add_validation_section
  split <;> rfl

/-- `add_scaling_section` never mutates the analyzer: it returns early
when there are no projections, and `generate_scaling_report` only
projects when there are none. -/
lemma add_scaling_section_snd (g : RP.ComprehensiveReportGenerator)
    (m : MM.MicroMacroAnalyzer) (ts : String) :
    (RP.add_scaling_section g m ts).2 = m := by
  unfold RP.add_scaling_section
  split
  · rfl
  · next p0 ps heq =>
    dsimp only
    rw [generate_scaling_report_fst m ts (by simp [heq])]

/-- `add_benchmarking_section` never mutates the tool. -/
lemma add_benchmarking_section_snd (g : RP.ComprehensiveReportGenerator)
    (b : BM.BenchmarkingTool) (ts : String) :
    (RP.add_benchmarking_section g b ts).2 = b := by
  unfold RP.add_benchmarking_section
  split <;> rfl

/-- `add_performance_section` re-appends the latest latency and
throughput samples to the analyzer histories and changes nothing else
of the analyzer. -/
lemma add_performance_section_snd (g : RP.ComprehensiveReportGenerator)
    (p : PA.PerformanceAnalyzer) (ts : String) :
    (RP.add_performance_section g p ts).2 =
      { p with
        latency_history :=
          p.latency_history ++ p.latency_history.getLast?.toList
        throughput_history :=
          p.throughput_history ++ p.throughput_history.getLast?.toList } := by
  unfold RP.add_performance_section
  split
  · next hcond =>
    obtain ⟨h1, h2⟩ := hcond
    rw [List.isEmpty_iff] at h1 h2
    cases p
    simp_all
  · dsimp only
    rw [generate_performance_report_fst]

/-- Each section builder only appends to the generator sections and
anomalies lists. -/
lemma add_validation_section_fst (g : RP.ComprehensiveReportGenerator)
    (v : RV.ResourceValidator) (ts : String) :
    ∃ s a, (RP.add_validation_section g v ts).1 =
      { sections := g.sections ++ s, anomalies := g.anomalies ++ a
        created_at := g.created_at } := by
  unfold RP.add_validation_section
  split
  · exact ⟨[], [], by simp⟩
  · exact ⟨_, _, rfl⟩

/-- Each section builder only appends to the generator sections and
anomalies lists. -/
lemma add_scaling_section_fst (g : RP.ComprehensiveReportGenerator)
    (m : MM.MicroMacroAnalyzer) (ts : String) :
    ∃ s a, (RP.add_scaling_section g m ts).1 =
      { sections := g.sections ++ s, anomalies := g.anomalies ++ a
        created_at := g.created_at } := by
  unfold RP.add_scaling_section
  split
  · exact ⟨[], [], by simp⟩
  · exact ⟨_, _, rfl⟩

/-- Each section builder only appends to the generator sections and
anomalies lists. -/
lemma add_benchmarking_section_fst (g : RP.ComprehensiveReportGenerator)
    (b : BM.BenchmarkingTool) (ts : String) :
    ∃ s a, (RP.add_benchmarking_section g b ts).1 =
      { sections := g.sections ++ s, anomalies := g.anomalies ++ a
        created_at := g.created_at } := by
  unfold RP.add_benchmarking_section
  split
  · exact ⟨[], [], by simp⟩
  · exact ⟨_, _, rfl⟩

/-- Each section builder only appends to the generator sections and
anomalies lists. -/
lemma add_performance_section_fst (g : RP.ComprehensiveReportGenerator)
    (p : PA.PerformanceAnalyzer) (ts : String) :
    ∃ s a, (RP.add_performance_section g p ts).1 =
      { sections := g.sections ++ s, anomalies := g.anomalies ++ a
        created_at := g.created_at } := by
  unfold RP.add_performance_section
  split
  · exact ⟨[], [], by simp⟩
  · exact ⟨_, _, rfl⟩

/-- C2 (amended): `add_validation_section`, `add_scaling_section`, and `add_benchmarking_section` leave the target analyzer exactly unchanged; `add_performance_section` re-appends the latest latency and throughput samples (when present) to the analyzer histories and changes nothing else of the analyzer; and every section builder mutates generator state only by appending to its sections and anomalies lists. -/
theorem C2_theorem :
    (∀ g v ts, (RP.add_validation_section g v ts).2 = v) ∧
    (∀ g m ts, (RP.add_scaling_section g m ts).2 = m) ∧
    (∀ g b ts, (RP.add_benchmarking_section g b ts).2 = b) ∧
    (∀ g p ts, (RP.add_performance_section g p ts).2 =
      { p with
        latency_history :=
          p.latency_history ++ p.latency_history.getLast?.toList
        throughput_history :=
          p.throughput_history ++ p.throughput_history.getLast?.toList }) ∧
    (∀ g v ts, ∃ s a, (RP.add_validation_section g v ts).1 =
      { sections := g.sections ++ s, anomalies := g.anomalies ++ a
        created_at := g.created_at }) ∧
    (∀ g m ts, ∃ s a, (RP.add_scaling_section g m ts).1 =
      { sections := g.sections ++ s, anomalies := g.anomalies ++ a
        created_at := g.created_at }) ∧
    (∀ g b ts, ∃ s a, (RP.add_benchmarking_section g b ts).1 =
      { sections := g.sections ++ s, anomalies := g.anomalies ++ a
        created_at := g.created_at }) ∧
    (∀ g p ts, ∃ s a, (RP.add_performance_section g p ts).1 =
      { sections := g.sections ++ s, anomalies := g.anomalies ++ a
        created_at := g.created_at }) :=
  ⟨add_validation_section_snd, add_scaling_section_snd,
   add_benchmarking_section_snd, add_performance_section_snd,
   add_validation_section_fst, add_scaling_section_fst,
   add_benchmarking_section_fst, add_performance_section_fst⟩

/-- C2 counterexample: on an analyzer holding one latency sample, `add_performance_section` leaves `latency_history` with different contents than before the call (the latest sample is duplicated). -/
theorem C2_counterexample :
    (RP.add_performance_section gen0 pa_one_latency "ts").2.latency_history ≠
      pa_one_latency.latency_history := by
  rw [add_performance_section_snd]
  simp [pa_one_latency]

/-- `validate_storage` never reads `tolerance_percent`: changing it
only changes the stored field of the returned validator. -/
lemma validate_storage_tol (t₁ t₂ : ℚ) (h : List RV.ValidationResult)
    (c : RV.ResourceClaim) (u : RV.ResourceUsage) (ts : String) :
    RV.validate_storage ⟨t₂, h⟩ c u ts =
      (RV.validate_storage ⟨t₁, h⟩ c u ts).map
        (fun p => ({ p.1 with tolerance_percent := t₂ }, p.2)) := by
  unfold RV.validate_storage
  split_ifs <;> rfl

/-- `validate_compute` never reads `tolerance_percent`. -/
lemma validate_compute_tol (t₁ t₂ : ℚ) (h : List RV.ValidationResult)
    (c : RV.ResourceClaim) (u : RV.ResourceUsage) (ts : String) :
    RV.validate_compute ⟨t₂, h⟩ c u ts =
      (RV.validate_compute ⟨t₁, h⟩ c u ts).map
        (fun p => ({ p.1 with tolerance_percent := t₂ }, p.2)) := by
  unfold RV.validate_compute
  split_ifs <;> rfl

/-- The `batch_validate` loop body never reads `tolerance_percent`. -/
lemma batch_step_tol (usages : List RV.ResourceUsage) (ts : String)
    (t₁ t₂ : ℚ) (h : List RV.ValidationResult)
    (rs : List RV.ValidationResult) (c : RV.ResourceClaim) :
    RV.batch_validate_step usages ts (⟨t₂, h⟩, rs) c =
      (RV.batch_validate_step usages ts (⟨t₁, h⟩, rs) c).map
        (fun p => (⟨t₂, p.1.validation_history⟩, p.2)) := by
  unfold RV.batch_validate_step
  cases hf : usages.find? (fun u => u.resource_type = c.resource_type) with
  | none => rfl
  | some mu =>
    cases hrt : c.resource_type <;> dsimp only
    case storage =>
      rw [validate_storage_tol t₁ t₂]
      rcases hv : RV.validate_storage ⟨t₁, h⟩ c mu ts with e | p <;>
        simp [Except.map, bind, Except.bind, pure, Except.pure]
    case compute =>
      rw [validate_compute_tol t₁ t₂]
      rcases hv : RV.validate_compute ⟨t₁, h⟩ c mu ts with e | p <;>
        simp [Except.map, bind, Except.bind, pure, Except.pure]
    all_goals rfl

/-- The whole `batch_validate` fold never reads `tolerance_percent`. -/
lemma batch_fold_tol (usages : List RV.ResourceUsage) (ts : String) :
    ∀ (cs : List RV.ResourceClaim) (t₁ t₂ : ℚ)
      (h rs : List RV.ValidationResult),
    cs.foldlM (RV.batch_validate_step usages ts)
        ((⟨t₂, h⟩ : RV.ResourceValidator), rs) =
      (cs.foldlM (RV.batch_validate_step usages ts) (⟨t₁, h⟩, rs)).map
        (fun p => (⟨t₂, p.1.validation_history⟩, p.2)) := by
  intro cs
  induction cs with
  | nil =>
    intro t₁ t₂ h rs
    simp [Except.map, pure, Except.pure]
  | cons c cs ih =>
    intro t₁ t₂ h rs
    rw [List.foldlM_cons, List.foldlM_cons, batch_step_tol usages ts t₁ t₂]
    rcases hstep : RV.batch_validate_step usages ts (⟨t₁, h⟩, rs) c with e | p
    · simp [Except.map, bind, Except.bind]
    · obtain ⟨⟨pt, ph⟩, pr⟩ := p
      have hself := batch_step_tol usages ts t₁ t₁ h rs c
      rw [hstep] at hself
      simp only [Except.map] at hself
      have hpt : pt = t₁ := by simpa using hself
      subst hpt
      simp only [Except.map, bind, Except.bind]
      exact ih pt t₂ ph pr

/-- `batch_validate` never reads `tolerance_percent`. -/
lemma batch_validate_tol (t₁ t₂ : ℚ) (h : List RV.ValidationResult)
    (cs : List RV.ResourceClaim) (usages : List RV.ResourceUsage)
    (ts : String) :
    RV.batch_validate ⟨t₂, h⟩ cs usages ts =
      (RV.batch_validate ⟨t₁, h⟩ cs usages ts).map
        (fun p => (⟨t₂, p.1.validation_history⟩, p.2)) := by
  unfold RV.batch_validate
  rw [batch_fold_tol usages ts cs t₁ t₂ h []]
  rcases hf : cs.foldlM (RV.batch_validate_step usages ts)
      ((⟨t₁, h⟩ : RV.ResourceValidator), []) with e | p <;>
    simp [Except.map, bind, Except.bind, pure, Except.pure]

/-- One call never reads `tolerance_percent`: its output and the new
history are those of a run with any other tolerance. -/
lemma exec_tol (t₁ t₂ : ℚ) (h : List RV.ValidationResult)
    (call : ValidatorCall) (ts : String) :
    exec_validator_call ⟨t₂, h⟩ call ts =
      (⟨t₂, (exec_validator_call ⟨t₁, h⟩ call ts).1.validation_history⟩,
       (exec_validator_call ⟨t₁, h⟩ call ts).2) := by
  cases call with
  | storage c u =>
    simp only [exec_validator_call, RV.run_validate_storage,
      validate_storage_tol t₁ t₂]
    rcases hv : RV.validate_storage ⟨t₁, h⟩ c u ts with e | p <;>
      simp [Except.map]
  | compute c u =>
    simp only [exec_validator_call, RV.run_validate_compute,
      validate_compute_tol t₁ t₂]
    rcases hv : RV.validate_compute ⟨t₁, h⟩ c u ts with e | p <;>
      simp [Except.map]
  | batch cls us =>
    simp only [exec_validator_call, batch_validate_tol t₁ t₂]
    rcases hv : RV.batch_validate ⟨t₁, h⟩ cls us ts with e | p <;>
      simp [Except.map]

/-- A whole call sequence never reads `tolerance_percent`. -/
lemma run_tol (ts : String) :
    ∀ (calls : List ValidatorCall) (t₁ t₂ : ℚ)
      (h : List RV.ValidationResult),
    run_validator_calls ⟨t₂, h⟩ calls ts =
      (⟨t₂, (run_validator_calls ⟨t₁, h⟩ calls ts).1.validation_history⟩,
       (run_validator_calls ⟨t₁, h⟩ calls ts).2) := by
  intro calls
  induction calls with
  | nil => intro t₁ t₂ h; rfl
  | cons c cs ih =>
    intro t₁ t₂ h
    have e1 := exec_tol t₁ t₁ h c ts
    have e2 := exec_tol t₁ t₂ h c ts
    simp only [run_validator_calls]
    rw [e2, e1]
    dsimp only
    rw [ih t₁ t₂ (exec_validator_call ⟨t₁, h⟩ c ts).1.validation_history]

/-- C10: two validators differing only in the tolerance_percent constructor argument produce identical outputs (results, summaries, histories) on every sequence of validate_storage, validate_compute, and batch_validate calls: the argument never influences any output. -/
theorem C10_theorem (t₁ t₂ : ℚ) (h : List RV.ValidationResult)
    (calls : List ValidatorCall) (ts : String) :
    (run_validator_calls ⟨t₁, h⟩ calls ts).1.validation_history =
      (run_validator_calls ⟨t₂, h⟩ calls ts).1.validation_history ∧
    (run_validator_calls ⟨t₁, h⟩ calls ts).2 =
      (run_validator_calls ⟨t₂, h⟩ calls ts).2 := by
  rw [run_tol ts calls t₁ t₂ h]
  exact ⟨rfl, rfl⟩
